import Mathlib

/-!
Verification development for the wa-sticker-formatter repository.

Part 1 embeds the two adaptive transcoder implementations the design
document describes: `videoToGif` from `src/internal/videoToGif_optimized.ts`
and `adaptiveVideoToWebp` from the unnamed adaptive-conversion module.
The external ffmpeg invocation (the "Codec Service") is modelled as an
oracle mapping an encoding request to `some buffer` (the bytes written to
the per-attempt temporary WebP file) or `none` (the invocation rejected,
producing no file, as the design's codec contract specifies: "a produced
buffer at a known path, or a thrown/reported failure with no partial
buffer").  Buffers are byte lists, so `buffer.length` is the measured
`sizeBytes`.  The temporary-file state visible to each call is threaded
explicitly so that cleanup behaviour is part of the embedding.

Part 2 embeds the compliance validator from
`src/internal/WhatsAppValidation.ts`.  A sticker buffer is modelled by its
observable behaviour: its byte length, the result of the `file-type`
sniff (`fromBuffer`, which may reject, return no type, or return a MIME
type), and the result of `sharp(buffer).metadata()` (which may reject or
return page/width/height fields, each possibly undefined).  JavaScript
try/catch is modelled with `Except`; every mutation of the validation
result object is threaded functionally in source order.
-/

set_option maxRecDepth 8192

def exceptDecEq {ε α : Type} [DecidableEq ε] [DecidableEq α] : DecidableEq (Except ε α) := fun x y =>
  match x, y with
  | Except.ok a, Except.ok b =>
    if h : a = b then isTrue (h ▸ rfl) else isFalse (fun hc => h (Except.ok.inj hc))
  | Except.error a, Except.error b =>
    if h : a = b then isTrue (h ▸ rfl) else isFalse (fun hc => h (Except.error.inj hc))
  | Except.ok _, Except.error _ => isFalse (fun hc => Except.noConfusion hc)
  | Except.error _, Except.ok _ => isFalse (fun hc => Except.noConfusion hc)

instance {ε α : Type} [DecidableEq ε] [DecidableEq α] : DecidableEq (Except ε α) := exceptDecEq

/-- One entry of the `qualityLevels` ladder of `adaptiveVideoToWebp`
(unnamed adaptive module): quality, fps, duration and compression level. -/
structure AdaptiveQualityLevel where
  quality : Nat
  fps : Nat
  duration : Nat
  compression : Nat
deriving DecidableEq

/-- One entry of the `qualityLevels` ladder of `videoToGif`
(`videoToGif_optimized.ts`): quality, fps, duration, compression level and
compression method. -/
structure OptimizedQualityLevel where
  quality : Nat
  fps : Nat
  duration : Nat
  compression : Nat
  method : Nat
deriving DecidableEq

/-- The full per-attempt encode request of `videoToGif_optimized.ts`: the
ladder entry plus the `mpdecimate` filter flag, which the source adds only
for attempt indices `i > 1`. -/
structure OptimizedRequest where
  settings : OptimizedQualityLevel
  decimate : Bool
deriving DecidableEq

/-- Temporary files a transcode call can create: the input video written to
`tmpdir` and each attempt's `_q<quality>.webp` output file. -/
inductive TmpFile
  | video
  | webp (quality : Nat)
deriving DecidableEq

/-- Failure modes of a transcode call: the explicit
`Failed to convert video with any quality settings` exhaustion error, or a
codec error rethrown out of the attempt loop. -/
inductive ConvError
  | exhausted
  | codecFailure
deriving DecidableEq

/-- Observable outcome of one transcode invocation: the returned buffer or
raised error, the codec invocations that were issued (in order), and the
temporary files still existing when the call returns or raises. -/
structure TranscodeRun (α : Type) where
  outcome : Except ConvError (List Nat)
  invoked : List α
  files : List TmpFile
deriving DecidableEq

/-- The attempt loop of `adaptiveVideoToWebp` (unnamed adaptive module,
lines 26-80).  Arguments thread the `result` variable and the set of live
temporary files; the returned triple is the final `result`, the codec
invocations issued, and the final file state.  On codec success the
attempt's WebP file is created by `ffmpeg.save` and then removed by the
`unlink` in the try/catch; on failure the codec creates no file and the
loop continues with the next preset. -/
def adaptiveLoop (enc : AdaptiveQualityLevel → Option (List Nat)) (targetSize : Nat) :
    List AdaptiveQualityLevel → Option (List Nat) → List TmpFile →
    Option (List Nat) × List AdaptiveQualityLevel × List TmpFile
  | [], result, files => (result, [], files)
  | settings :: rest, result, files =>
    match enc settings with
    | none =>
      let r := adaptiveLoop enc targetSize rest result files
      (r.1, settings :: r.2.1, r.2.2)
    | some buffer =>
      let files1 := TmpFile.webp settings.quality :: files
      let files2 := files1.erase (TmpFile.webp settings.quality)
      if buffer.length ≤ targetSize then
        (some buffer, [settings], files2)
      else if rest.isEmpty then
        let r := adaptiveLoop enc targetSize rest (some buffer) files2
        (r.1, settings :: r.2.1, r.2.2)
      else
        let r := adaptiveLoop enc targetSize rest result files2
        (r.1, settings :: r.2.1, r.2.2)

/-- The hard-coded `qualityLevels` ladder of `adaptiveVideoToWebp`. -/
def adaptiveQualityLevels : List AdaptiveQualityLevel :=
  [ { quality := 60, fps := 12, duration := 8, compression := 4 }
  , { quality := 50, fps := 10, duration := 6, compression := 5 }
  , { quality := 40, fps := 8, duration := 5, compression := 6 }
  , { quality := 30, fps := 6, duration := 4, compression := 6 }
  , { quality := 20, fps := 5, duration := 3, compression := 6 } ]

/-- `adaptiveVideoToWebp` with the ladder abstracted as a parameter (the
source hard-codes `adaptiveQualityLevels`; the abstraction lets properties
quantify over "every ladder tried in declared order").  The input video is
written to a temp file, the attempt loop runs, the input file is unlinked,
and the call returns the `result` buffer or raises the exhaustion error. -/
def adaptiveVideoToWebpWith (enc : AdaptiveQualityLevel → Option (List Nat)) (targetSize : Nat)
    (qualityLevels : List AdaptiveQualityLevel) : TranscodeRun AdaptiveQualityLevel :=
  let files0 : List TmpFile := [TmpFile.video]
  let r := adaptiveLoop enc targetSize qualityLevels none files0
  let files1 := r.2.2.erase TmpFile.video
  match r.1 with
  | some buffer => { outcome := Except.ok buffer, invoked := r.2.1, files := files1 }
  | none => { outcome := Except.error ConvError.exhausted, invoked := r.2.1, files := files1 }

/-- `adaptiveVideoToWebp` as in the source, with its hard-coded ladder. -/
def adaptiveVideoToWebp (enc : AdaptiveQualityLevel → Option (List Nat)) (targetSize : Nat) :
    TranscodeRun AdaptiveQualityLevel :=
  adaptiveVideoToWebpWith enc targetSize adaptiveQualityLevels

/-- The encode requests `videoToGif` issues for a ladder slice whose first
element has attempt index `i`: each entry is paired with its
`mpdecimate` flag `i > 1`. -/
def optimizedRequests (i : Nat) : List OptimizedQualityLevel → List OptimizedRequest
  | [] => []
  | settings :: rest =>
    { settings := settings, decimate := decide (1 < i) } :: optimizedRequests (i + 1) rest

/-- The attempt loop of `videoToGif` (`videoToGif_optimized.ts`, lines
30-94).  Differences from the adaptive module: the request carries the
index-dependent `mpdecimate` flag, and a codec failure on the LAST attempt
rethrows the codec error out of the loop (source line 90) instead of
falling through — the `Except.error ()` constructor records that exit, and
crucially it returns the file state untouched at that point. -/
def videoToGifLoop (enc : OptimizedRequest → Option (List Nat)) (targetSize : Nat) :
    Nat → List OptimizedQualityLevel → Option (List Nat) → List TmpFile →
    Except Unit (Option (List Nat)) × List OptimizedRequest × List TmpFile
  | i, [], result, files =>
    let _ := i
    (Except.ok result, [], files)
  | i, settings :: rest, result, files =>
    let request : OptimizedRequest := { settings := settings, decimate := decide (1 < i) }
    match enc request with
    | none =>
      if rest.isEmpty then (Except.error (), [request], files)
      else
        let r := videoToGifLoop enc targetSize (i + 1) rest result files
        (r.1, request :: r.2.1, r.2.2)
    | some buffer =>
      let files1 := TmpFile.webp settings.quality :: files
      let files2 := files1.erase (TmpFile.webp settings.quality)
      if buffer.length ≤ targetSize then
        (Except.ok (some buffer), [request], files2)
      else if rest.isEmpty then
        let r := videoToGifLoop enc targetSize (i + 1) rest (some buffer) files2
        (r.1, request :: r.2.1, r.2.2)
      else
        let r := videoToGifLoop enc targetSize (i + 1) rest result files2
        (r.1, request :: r.2.1, r.2.2)

/-- The hard-coded `qualityLevels` ladder of `videoToGif_optimized.ts`. -/
def optimizedQualityLevels : List OptimizedQualityLevel :=
  [ { quality := 50, fps := 10, duration := 6, compression := 5, method := 4 }
  , { quality := 40, fps := 8, duration := 5, compression := 6, method := 6 }
  , { quality := 30, fps := 6, duration := 4, compression := 6, method := 6 }
  , { quality := 25, fps := 5, duration := 3, compression := 6, method := 6 } ]

/-- The `targetSize` constant of `videoToGif_optimized.ts` (500 KiB). -/
def videoToGifTarget : Nat := 500 * 1024

/-- `videoToGif` (`videoToGif_optimized.ts`) with the ladder abstracted.
When the loop rethrows a codec error the input video file is NOT unlinked
(the source's cleanup at lines 97-99 is after the loop and is skipped by
the throw at line 90); on the normal exits the input file is unlinked
before the buffer is returned or the exhaustion error raised. -/
def videoToGifWith (enc : OptimizedRequest → Option (List Nat))
    (qualityLevels : List OptimizedQualityLevel) : TranscodeRun OptimizedRequest :=
  let files0 : List TmpFile := [TmpFile.video]
  match videoToGifLoop enc videoToGifTarget 0 qualityLevels none files0 with
  | (Except.error _, invoked, files1) =>
    { outcome := Except.error ConvError.codecFailure, invoked := invoked, files := files1 }
  | (Except.ok result, invoked, files1) =>
    let files2 := files1.erase TmpFile.video
    match result with
    | some buffer => { outcome := Except.ok buffer, invoked := invoked, files := files2 }
    | none => { outcome := Except.error ConvError.exhausted, invoked := invoked, files := files2 }

/-- `videoToGif` as in the source, with its hard-coded ladder. -/
def videoToGif (enc : OptimizedRequest → Option (List Nat)) : TranscodeRun OptimizedRequest :=
  videoToGifWith enc optimizedQualityLevels

/-- A ladder entry "fits" when its codec invocation produces a buffer whose
size is at or under the target (`buffer.length <= targetSize`). -/
def fitsAdaptive (enc : AdaptiveQualityLevel → Option (List Nat)) (targetSize : Nat)
    (settings : AdaptiveQualityLevel) : Bool :=
  match enc settings with
  | some buffer => decide (buffer.length ≤ targetSize)
  | none => false

/-- Same fit test for the optimized module's indexed requests. -/
def fitsOptimized (enc : OptimizedRequest → Option (List Nat)) (targetSize : Nat)
    (request : OptimizedRequest) : Bool :=
  match enc request with
  | some buffer => decide (buffer.length ≤ targetSize)
  | none => false

/-- MIME classification relevant to `WhatsAppValidator`: `image/webp`,
`image/gif`, or any other detected type. -/
inductive Mime
  | webp
  | gif
  | other
deriving DecidableEq

/-- Result of `sharp(buffer).metadata()`: page count, width and height,
each possibly undefined. -/
structure SharpMetadata where
  pages : Option Nat
  width : Option Nat
  height : Option Nat
deriving DecidableEq

/-- A sticker buffer modelled by its observable behaviour: its byte
length, the result of the `file-type` sniff (which may reject or find no
type), and the result of `sharp(buffer).metadata()` (which may reject).
An unreadable/corrupt buffer is one whose `fileType` and/or `sharpMeta`
reject with a cause string. -/
structure StickerBuffer where
  length : Nat
  fileType : Except String (Option Mime)
  sharpMeta : Except String SharpMetadata
deriving DecidableEq

/-- The caller-supplied metadata (`Partial IStickerOptions` in the source:
every field may be absent). -/
structure IStickerOptions where
  pack : Option String
  author : Option String
  id : Option String
  categories : Option (List String)
deriving DecidableEq

/-- The `WHATSAPP_LIMITS` constants of `WhatsAppValidation.ts` that the
validator reads. -/
def STATIC_MAX_SIZE : Nat := 100 * 1024

def ANIMATED_MAX_SIZE : Nat := 500 * 1024

def STICKER_SIZE : Nat := 512

def PACK_NAME_MAX_LENGTH : Nat := 128

def AUTHOR_MAX_LENGTH : Nat := 128

def ID_MAX_LENGTH : Nat := 128

def MAX_CATEGORIES_PER_STICKER : Nat := 3

def RECOMMENDED_FILE_SIZE : Nat := 15 * 1024

/-- The distinct error strings `validateSticker` can push, one constructor
per `result.errors.push` site, carrying the data interpolated into the
message. -/
inductive VError
  | fileSizeExceeded (size limit : Nat) (animated : Bool)
  | dimensionsInvalid (width height : Nat)
  | dimensionsReadFailed (cause : String)
  | packNameTooLong
  | authorTooLong
  | idTooLong
  | idInvalidChars
  | tooManyCategories (count : Nat)
  | validationFailed (cause : String)
deriving DecidableEq

/-- The distinct warning strings, one constructor per
`result.warnings.push` site. -/
inductive VWarning
  | fileSizeLarge (size : Nat)
  | noCategories
  | whiteStrokeAdvisory
  | animatedDurationAdvisory
  | highFrameCount (pages : Nat)
  | animatedValidationIncomplete (cause : String)
deriving DecidableEq

/-- `fileSize.type` of the validation result. -/
inductive SizeType
  | static
  | animated
deriving DecidableEq

/-- The `fileSize` sub-report. -/
structure FileSizeReport where
  size : Nat
  isValid : Bool
  limit : Nat
  type : SizeType
deriving DecidableEq

/-- The `dimensions` sub-report. -/
structure DimensionsReport where
  width : Nat
  height : Nat
  isValid : Bool
deriving DecidableEq

/-- A `pack`/`author`/`id` metadata sub-report. -/
structure FieldReport where
  value : String
  isValid : Bool
  limit : Nat
deriving DecidableEq

/-- The `categories` metadata sub-report. -/
structure CategoriesReport where
  value : List String
  isValid : Bool
  count : Nat
  limit : Nat
deriving DecidableEq

/-- The `metadata` sub-report. -/
structure MetadataReport where
  pack : FieldReport
  author : FieldReport
  id : FieldReport
  categories : CategoriesReport
deriving DecidableEq

/-- `IWhatsAppValidationResult`: the compliance report. -/
structure ValidationResult where
  isValid : Bool
  errors : List VError
  warnings : List VWarning
  fileSize : FileSizeReport
  dimensions : DimensionsReport
  metadata : MetadataReport
deriving DecidableEq

/-- The freshly initialised `result` object of `validateSticker`
(`WhatsAppValidation.ts` lines 83-95): everything valid, zeroed and
empty. -/
def initialResult : ValidationResult :=
  { isValid := true
    errors := []
    warnings := []
    fileSize := { size := 0, isValid := true, limit := 0, type := SizeType.static }
    dimensions := { width := 0, height := 0, isValid := true }
    metadata :=
      { pack := { value := "", isValid := true, limit := PACK_NAME_MAX_LENGTH }
        author := { value := "", isValid := true, limit := AUTHOR_MAX_LENGTH }
        id := { value := "", isValid := true, limit := ID_MAX_LENGTH }
        categories := { value := [], isValid := true, count := 0, limit := MAX_CATEGORIES_PER_STICKER } } }

/-- The body of `isAnimatedSticker` before its catch: sniff the type
(propagating a rejection), return `false` for no type, decide WebP by the
decoded page count (propagating a `sharp` rejection), and otherwise return
whether the type is GIF. -/
def isAnimatedStickerTry (buffer : StickerBuffer) : Except String Bool := do
  let fileType ← buffer.fileType
  match fileType with
  | none => pure false
  | some Mime.webp => do
    let metadata ← buffer.sharpMeta
    match metadata.pages with
    | some pages => pure (decide (1 < pages))
    | none => pure false
  | some mime => pure (mime == Mime.gif)

/-- `isAnimatedSticker` (lines 130-146): the body wrapped in the
try/catch that turns any rejection into `false`. -/
def isAnimatedSticker (buffer : StickerBuffer) : Bool :=
  match isAnimatedStickerTry buffer with
  | Except.ok value => value
  | Except.error _ => false

/-- `validateFileSize` (lines 151-175): record size, limit and validity in
the sub-report, push an error when over the limit, and push a warning when
the size is more than three times the recommended 15 KiB. -/
def validateFileSize (buffer : StickerBuffer) (isAnimated : Bool)
    (result : ValidationResult) : ValidationResult :=
  let size := buffer.length
  let limit := if isAnimated then ANIMATED_MAX_SIZE else STATIC_MAX_SIZE
  let result :=
    { result with
        fileSize :=
          { result.fileSize with size := size, limit := limit, isValid := decide (size ≤ limit) } }
  let result :=
    if size ≤ limit then result
    else { result with errors := result.errors ++ [VError.fileSizeExceeded size limit isAnimated] }
  if RECOMMENDED_FILE_SIZE * 3 < size then
    { result with warnings := result.warnings ++ [VWarning.fileSizeLarge size] }
  else result

/-- `validateDimensions` (lines 180-201): on a successful decode, record
width and height (defaulting undefined to 0) and require both to equal
512, pushing an error otherwise; on a decode rejection, push an error
embedding the cause and mark the dimensions sub-report invalid. -/
def validateDimensions (buffer : StickerBuffer) (result : ValidationResult) : ValidationResult :=
  match buffer.sharpMeta with
  | Except.ok metadata =>
    let width := metadata.width.getD 0
    let height := metadata.height.getD 0
    let valid := decide (width = STICKER_SIZE) && decide (height = STICKER_SIZE)
    let result := { result with dimensions := { width := width, height := height, isValid := valid } }
    if valid then result
    else { result with errors := result.errors ++ [VError.dimensionsInvalid width height] }
  | Except.error cause =>
    { result with
        errors := result.errors ++ [VError.dimensionsReadFailed cause]
        dimensions := { result.dimensions with isValid := false } }

/-- The character class of the sticker-ID regex
`[a-zA-Z0-9_\-. ]` (letters, digits, underscore, hyphen, dot, space). -/
def allowedIdChar (c : Char) : Bool :=
  (decide ('a' ≤ c) && decide (c ≤ 'z')) ||
  (decide ('A' ≤ c) && decide (c ≤ 'Z')) ||
  (decide ('0' ≤ c) && decide (c ≤ '9')) ||
  c == '_' || c == '-' || c == '.' || c == ' '

/-- `validateMetadata` (lines 206-257): pack/author/id length checks, the
id charset check (applied only to a non-empty id, like the source's
`if (id && !regex.test(id))`), the category count check, the
missing-categories warning and the always-pushed white-stroke advisory.
Absent fields default to the empty string / empty list as with `|| ''`.
String length counts characters of the decoded string. -/
def validateMetadata (metadata : IStickerOptions) (result : ValidationResult) : ValidationResult :=
  let pack := metadata.pack.getD ""
  let result :=
    { result with metadata := { result.metadata with pack := { result.metadata.pack with value := pack } } }
  let result :=
    if PACK_NAME_MAX_LENGTH < pack.length then
      { result with
          metadata := { result.metadata with pack := { result.metadata.pack with isValid := false } }
          errors := result.errors ++ [VError.packNameTooLong] }
    else result
  let author := metadata.author.getD ""
  let result :=
    { result with metadata := { result.metadata with author := { result.metadata.author with value := author } } }
  let result :=
    if AUTHOR_MAX_LENGTH < author.length then
      { result with
          metadata := { result.metadata with author := { result.metadata.author with isValid := false } }
          errors := result.errors ++ [VError.authorTooLong] }
    else result
  let id := metadata.id.getD ""
  let result :=
    { result with metadata := { result.metadata with id := { result.metadata.id with value := id } } }
  let result :=
    if ID_MAX_LENGTH < id.length then
      { result with
          metadata := { result.metadata with id := { result.metadata.id with isValid := false } }
          errors := result.errors ++ [VError.idTooLong] }
    else result
  let result :=
    if (!id.data.isEmpty && !id.data.all allowedIdChar) = true then
      { result with
          metadata := { result.metadata with id := { result.metadata.id with isValid := false } }
          errors := result.errors ++ [VError.idInvalidChars] }
    else result
  let categories := metadata.categories.getD []
  let result :=
    { result with
        metadata :=
          { result.metadata with
              categories :=
                { result.metadata.categories with value := categories, count := categories.length } } }
  let result :=
    if MAX_CATEGORIES_PER_STICKER < categories.length then
      { result with
          metadata :=
            { result.metadata with
                categories := { result.metadata.categories with isValid := false } }
          errors := result.errors ++ [VError.tooManyCategories categories.length] }
    else result
  let result :=
    if categories.length = 0 then
      { result with warnings := result.warnings ++ [VWarning.noCategories] }
    else result
  { result with warnings := result.warnings ++ [VWarning.whiteStrokeAdvisory] }

/-- `validateAnimatedSticker` (lines 262-283): warnings only.  A decode
rejection is caught into an advisory warning; with more than one page the
duration advisory is pushed, plus the high-frame-count warning above 150
pages. -/
def validateAnimatedSticker (buffer : StickerBuffer) (result : ValidationResult) : ValidationResult :=
  match buffer.sharpMeta with
  | Except.ok metadata =>
    match metadata.pages with
    | some pages =>
      if 1 < pages then
        let result := { result with warnings := result.warnings ++ [VWarning.animatedDurationAdvisory] }
        if 150 < pages then
          { result with warnings := result.warnings ++ [VWarning.highFrameCount pages] }
        else result
      else result
    | none => result
  | Except.error cause =>
    { result with warnings := result.warnings ++ [VWarning.animatedValidationIncomplete cause] }

/-- The try-block body of `validateSticker` (lines 97-114): classify,
stamp the size type, then run the four sub-validations in source order
(the animated extras only for animated buffers).  Every sub-validation
catches its own faults internally, so this body never rejects. -/
def validateStickerCore (buffer : StickerBuffer) (metadata : IStickerOptions) : ValidationResult :=
  let result := initialResult
  let isAnimated := isAnimatedSticker buffer
  let result :=
    { result with
        fileSize :=
          { result.fileSize with type := if isAnimated then SizeType.animated else SizeType.static } }
  let result := validateFileSize buffer isAnimated result
  let result := validateDimensions buffer result
  let result := validateMetadata metadata result
  if isAnimated then validateAnimatedSticker buffer result else result

/-- `validateSticker` (lines 79-125): run the body and set
`isValid = (errors.length == 0)` (line 117).  The function is total: for
every buffer, readable or not, it returns a report and never raises. -/
def validateSticker (buffer : StickerBuffer) (metadata : IStickerOptions) : ValidationResult :=
  let result := validateStickerCore buffer metadata
  { result with isValid := decide (result.errors.length = 0) }

/-- The catch handler of `validateSticker` (lines 120-123): fold a caught
cause into the report being built as a single error entry and mark the
report invalid.  (With the modelled fault points — `fromBuffer` and
`sharp().metadata()` — every fault is caught inside the sub-validations,
so this handler is unreachable, exactly as in the source.) -/
def validateStickerCatch (result : ValidationResult) (cause : String) : ValidationResult :=
  { result with isValid := false, errors := result.errors ++ [VError.validationFailed cause] }

/-- Modelled from the amended claim's words, for comparison against
`isAnimatedSticker`: a WebP-typed buffer is animated exactly when its
decoded page count exceeds 1 (static on decode failure or an undefined
page count); a GIF-typed buffer is always animated, its frame count never
consulted; every other buffer (unknown type, sniff failure, other type)
is static. -/
def classificationDescribed (buffer : StickerBuffer) : Bool :=
  match buffer.fileType with
  | Except.ok (some Mime.webp) =>
    (match buffer.sharpMeta with
     | Except.ok m =>
       (match m.pages with
        | some pages => decide (1 < pages)
        | none => false)
     | Except.error _ => false)
  | Except.ok (some Mime.gif) => true
  | _ => false

theorem append_cons_isEmpty {α : Type} (l : List α) (a : α) (t : List α) :
    (l ++ a :: t).isEmpty = false := by cases l <;> rfl

theorem adaptiveLoop_firstFit (enc : AdaptiveQualityLevel → Option (List Nat)) (targetSize : Nat)
    (pre : List AdaptiveQualityLevel) :
    ∀ (p : AdaptiveQualityLevel) (post : List AdaptiveQualityLevel)
      (result : Option (List Nat)) (files : List TmpFile) (b : List Nat),
      (∀ q ∈ pre, fitsAdaptive enc targetSize q = false) →
      enc p = some b → b.length ≤ targetSize →
      adaptiveLoop enc targetSize (pre ++ p :: post) result files = (some b, pre ++ [p], files) := by
  induction pre with
  | nil =>
    intro p post result files b _ hp hfit
    simp only [List.nil_append, adaptiveLoop, hp]
    rw [List.erase_cons_head]
    simp [hfit]
  | cons q pre ih =>
    intro p post result files b hpre hp hfit
    have hq : fitsAdaptive enc targetSize q = false := hpre q (by simp)
    have hrest : ∀ x ∈ pre, fitsAdaptive enc targetSize x = false :=
      fun x hx => hpre x (by simp [hx])
    simp only [List.cons_append, adaptiveLoop]
    cases hqe : enc q with
    | none =>
      simp only [List.append_eq]
      rw [ih p post result files b hrest hp hfit]
    | some c =>
      have hlen : ¬ c.length ≤ targetSize := by
        rw [fitsAdaptive, hqe] at hq
        simpa using hq
      simp only [List.erase_cons_head, if_neg hlen, List.append_eq, append_cons_isEmpty,
        Bool.false_eq_true, if_false]
      rw [ih p post result files b hrest hp hfit]

theorem videoToGifLoop_firstFit (enc : OptimizedRequest → Option (List Nat))
    (pre : List OptimizedQualityLevel) :
    ∀ (i : Nat) (p : OptimizedQualityLevel) (post : List OptimizedQualityLevel)
      (result : Option (List Nat)) (files : List TmpFile) (b : List Nat),
      (∀ q ∈ optimizedRequests i pre, fitsOptimized enc videoToGifTarget q = false) →
      enc { settings := p, decimate := decide (1 < i + pre.length) } = some b →
      b.length ≤ videoToGifTarget →
      videoToGifLoop enc videoToGifTarget i (pre ++ p :: post) result files =
        (Except.ok (some b),
          optimizedRequests i pre ++ [{ settings := p, decimate := decide (1 < i + pre.length) }],
          files) := by
  induction pre with
  | nil =>
    intro i p post result files b _ hp hfit
    simp only [List.length_nil, Nat.add_zero] at hp
    simp only [List.nil_append, videoToGifLoop, optimizedRequests, hp]
    rw [List.erase_cons_head]
    simp [hfit]
  | cons q pre ih =>
    intro i p post result files b hpre hp hfit
    have hq : fitsOptimized enc videoToGifTarget { settings := q, decimate := decide (1 < i) } = false :=
      hpre _ (by simp [optimizedRequests])
    have hrest : ∀ x ∈ optimizedRequests (i + 1) pre, fitsOptimized enc videoToGifTarget x = false :=
      fun x hx => hpre x (by simp [optimizedRequests, hx])
    have harith : i + 1 + pre.length = i + (q :: pre).length := by
      simp only [List.length_cons]
      omega
    have hp' : enc { settings := p, decimate := decide (1 < i + 1 + pre.length) } = some b := by
      rw [harith]
      exact hp
    simp only [List.cons_append, videoToGifLoop, optimizedRequests]
    cases hqe : enc { settings := q, decimate := decide (1 < i) } with
    | none =>
      simp only [List.append_eq, append_cons_isEmpty, Bool.false_eq_true, if_false]
      rw [ih (i + 1) p post result files b hrest hp' hfit]
      simp only [List.cons_append, Prod.mk.injEq, true_and]
      rw [harith]
      simp
    | some c =>
      have hlen : ¬ c.length ≤ videoToGifTarget := by
        rw [fitsOptimized, hqe] at hq
        simpa using hq
      simp only [List.erase_cons_head, if_neg hlen, List.append_eq, append_cons_isEmpty,
        Bool.false_eq_true, if_false]
      rw [ih (i + 1) p post result files b hrest hp' hfit]
      simp only [List.cons_append, Prod.mk.injEq, true_and]
      rw [harith]
      simp

theorem adaptiveLoop_noFit_last (enc : AdaptiveQualityLevel → Option (List Nat)) (targetSize : Nat)
    (front : List AdaptiveQualityLevel) :
    ∀ (lastP : AdaptiveQualityLevel) (result : Option (List Nat)) (files : List TmpFile)
      (b : List Nat),
      (∀ q ∈ front ++ [lastP], fitsAdaptive enc targetSize q = false) →
      enc lastP = some b →
      (adaptiveLoop enc targetSize (front ++ [lastP]) result files).1 = some b := by
  induction front with
  | nil =>
    intro lastP result files b hfits hlast
    have hfit : fitsAdaptive enc targetSize lastP = false := hfits lastP (by simp)
    have hlen : ¬ b.length ≤ targetSize := by
      rw [fitsAdaptive, hlast] at hfit
      simpa using hfit
    simp [adaptiveLoop, hlast, hlen]
  | cons q front ih =>
    intro lastP result files b hfits hlast
    have hq : fitsAdaptive enc targetSize q = false := hfits q (by simp)
    have hrest : ∀ x ∈ front ++ [lastP], fitsAdaptive enc targetSize x = false :=
      fun x hx => hfits x (by simp at hx ⊢; tauto)
    simp only [List.cons_append, adaptiveLoop]
    cases hqe : enc q with
    | none =>
      simp only [List.append_eq]
      exact ih lastP result files b hrest hlast
    | some c =>
      have hlen : ¬ c.length ≤ targetSize := by
        rw [fitsAdaptive, hqe] at hq
        simpa using hq
      simp only [List.erase_cons_head, if_neg hlen, List.append_eq, append_cons_isEmpty,
        Bool.false_eq_true, if_false]
      exact ih lastP result files b hrest hlast

theorem adaptiveLoop_noFit_lastFail (enc : AdaptiveQualityLevel → Option (List Nat))
    (targetSize : Nat) (front : List AdaptiveQualityLevel) :
    ∀ (lastP : AdaptiveQualityLevel) (files : List TmpFile),
      (∀ q ∈ front ++ [lastP], fitsAdaptive enc targetSize q = false) →
      enc lastP = none →
      (adaptiveLoop enc targetSize (front ++ [lastP]) none files).1 = none := by
  induction front with
  | nil =>
    intro lastP files _ hlast
    simp [adaptiveLoop, hlast]
  | cons q front ih =>
    intro lastP files hfits hlast
    have hq : fitsAdaptive enc targetSize q = false := hfits q (by simp)
    have hrest : ∀ x ∈ front ++ [lastP], fitsAdaptive enc targetSize x = false :=
      fun x hx => hfits x (by simp at hx ⊢; tauto)
    simp only [List.cons_append, adaptiveLoop]
    cases hqe : enc q with
    | none =>
      simp only [List.append_eq]
      exact ih lastP files hrest hlast
    | some c =>
      have hlen : ¬ c.length ≤ targetSize := by
        rw [fitsAdaptive, hqe] at hq
        simpa using hq
      simp only [List.erase_cons_head, if_neg hlen, List.append_eq, append_cons_isEmpty,
        Bool.false_eq_true, if_false]
      exact ih lastP files hrest hlast

theorem videoToGifLoop_noFit_last (enc : OptimizedRequest → Option (List Nat))
    (front : List OptimizedQualityLevel) :
    ∀ (i : Nat) (lastP : OptimizedQualityLevel) (result : Option (List Nat))
      (files : List TmpFile) (b : List Nat),
      (∀ q ∈ optimizedRequests i (front ++ [lastP]),
        fitsOptimized enc videoToGifTarget q = false) →
      enc { settings := lastP, decimate := decide (1 < i + front.length) } = some b →
      (videoToGifLoop enc videoToGifTarget i (front ++ [lastP]) result files).1 =
        Except.ok (some b) := by
  induction front with
  | nil =>
    intro i lastP result files b hfits hlast
    simp only [List.length_nil, Nat.add_zero] at hlast
    have hfit : fitsOptimized enc videoToGifTarget
        { settings := lastP, decimate := decide (1 < i) } = false :=
      hfits _ (by simp [optimizedRequests])
    have hlen : ¬ b.length ≤ videoToGifTarget := by
      rw [fitsOptimized, hlast] at hfit
      simpa using hfit
    simp [videoToGifLoop, hlast, hlen]
  | cons q front ih =>
    intro i lastP result files b hfits hlast
    have hq : fitsOptimized enc videoToGifTarget
        { settings := q, decimate := decide (1 < i) } = false :=
      hfits _ (by simp [optimizedRequests])
    have hrest : ∀ x ∈ optimizedRequests (i + 1) (front ++ [lastP]),
        fitsOptimized enc videoToGifTarget x = false :=
      fun x hx => hfits x (by simp [optimizedRequests, hx])
    have harith : i + 1 + front.length = i + (q :: front).length := by
      simp only [List.length_cons]
      omega
    have hlast' : enc { settings := lastP, decimate := decide (1 < i + 1 + front.length) } = some b := by
      rw [harith]
      exact hlast
    simp only [List.cons_append, videoToGifLoop]
    cases hqe : enc { settings := q, decimate := decide (1 < i) } with
    | none =>
      simp only [List.append_eq, append_cons_isEmpty, Bool.false_eq_true, if_false]
      exact ih (i + 1) lastP result files b hrest hlast'
    | some c =>
      have hlen : ¬ c.length ≤ videoToGifTarget := by
        rw [fitsOptimized, hqe] at hq
        simpa using hq
      simp only [List.erase_cons_head, if_neg hlen, List.append_eq, append_cons_isEmpty,
        Bool.false_eq_true, if_false]
      exact ih (i + 1) lastP result files b hrest hlast'

theorem videoToGifLoop_noFit_lastFail (enc : OptimizedRequest → Option (List Nat))
    (front : List OptimizedQualityLevel) :
    ∀ (i : Nat) (lastP : OptimizedQualityLevel) (result : Option (List Nat))
      (files : List TmpFile),
      (∀ q ∈ optimizedRequests i (front ++ [lastP]),
        fitsOptimized enc videoToGifTarget q = false) →
      enc { settings := lastP, decimate := decide (1 < i + front.length) } = none →
      (videoToGifLoop enc videoToGifTarget i (front ++ [lastP]) result files).1 =
        Except.error () := by
  induction front with
  | nil =>
    intro i lastP result files _ hlast
    simp only [List.length_nil, Nat.add_zero] at hlast
    simp [videoToGifLoop, hlast]
  | cons q front ih =>
    intro i lastP result files hfits hlast
    have hq : fitsOptimized enc videoToGifTarget
        { settings := q, decimate := decide (1 < i) } = false :=
      hfits _ (by simp [optimizedRequests])
    have hrest : ∀ x ∈ optimizedRequests (i + 1) (front ++ [lastP]),
        fitsOptimized enc videoToGifTarget x = false :=
      fun x hx => hfits x (by simp [optimizedRequests, hx])
    have harith : i + 1 + front.length = i + (q :: front).length := by
      simp only [List.length_cons]
      omega
    have hlast' : enc { settings := lastP, decimate := decide (1 < i + 1 + front.length) } = none := by
      rw [harith]
      exact hlast
    simp only [List.cons_append, videoToGifLoop]
    cases hqe : enc { settings := q, decimate := decide (1 < i) } with
    | none =>
      simp only [List.append_eq, append_cons_isEmpty, Bool.false_eq_true, if_false]
      exact ih (i + 1) lastP result files hrest hlast'
    | some c =>
      have hlen : ¬ c.length ≤ videoToGifTarget := by
        rw [fitsOptimized, hqe] at hq
        simpa using hq
      simp only [List.erase_cons_head, if_neg hlen, List.append_eq, append_cons_isEmpty,
        Bool.false_eq_true, if_false]
      exact ih (i + 1) lastP result files hrest hlast'

theorem exists_first_fit {α : Type} (pred : α → Bool) :
    ∀ l : List α, (∃ x ∈ l, pred x = true) →
      ∃ pre x post, l = pre ++ x :: post ∧ (∀ y ∈ pre, pred y = false) ∧ pred x = true := by
  intro l
  induction l with
  | nil => simp
  | cons a l ih =>
    intro h
    cases hpa : pred a with
    | true => exact ⟨[], a, l, rfl, by simp, hpa⟩
    | false =>
      have htail : ∃ x ∈ l, pred x = true := by
        rcases h with ⟨x, hx, hpx⟩
        rcases List.mem_cons.mp hx with he | hm
        · rw [he, hpa] at hpx
          cases hpx
        · exact ⟨x, hm, hpx⟩
      rcases ih htail with ⟨pre, x, post, hl, hpre, hpx⟩
      refine ⟨a :: pre, x, post, by rw [hl, List.cons_append], ?_, hpx⟩
      intro y hy
      rcases List.mem_cons.mp hy with h1 | h2
      · rw [h1]
        exact hpa
      · exact hpre y h2

theorem exists_first_fit_optimized (enc : OptimizedRequest → Option (List Nat)) :
    ∀ (ladder : List OptimizedQualityLevel) (i : Nat),
      (∃ q ∈ optimizedRequests i ladder, fitsOptimized enc videoToGifTarget q = true) →
      ∃ pre p post, ladder = pre ++ p :: post ∧
        (∀ q ∈ optimizedRequests i pre, fitsOptimized enc videoToGifTarget q = false) ∧
        fitsOptimized enc videoToGifTarget
          { settings := p, decimate := decide (1 < i + pre.length) } = true := by
  intro ladder
  induction ladder with
  | nil => simp [optimizedRequests]
  | cons a l ih =>
    intro i h
    cases hpa : fitsOptimized enc videoToGifTarget { settings := a, decimate := decide (1 < i) } with
    | true =>
      refine ⟨[], a, l, rfl, by simp [optimizedRequests], ?_⟩
      simpa using hpa
    | false =>
      have htail : ∃ q ∈ optimizedRequests (i + 1) l, fitsOptimized enc videoToGifTarget q = true := by
        rcases h with ⟨q, hq, hfq⟩
        rw [optimizedRequests] at hq
        rcases List.mem_cons.mp hq with he | hm
        · rw [he, hpa] at hfq
          cases hfq
        · exact ⟨q, hm, hfq⟩
      rcases ih (i + 1) htail with ⟨pre, p, post, hl, hpre, hp⟩
      refine ⟨a :: pre, p, post, by rw [hl, List.cons_append], ?_, ?_⟩
      · intro q hq
        rw [optimizedRequests] at hq
        rcases List.mem_cons.mp hq with h1 | h2
        · rw [h1]
          exact hpa
        · exact hpre q h2
      · have harith : i + 1 + pre.length = i + (a :: pre).length := by
          simp only [List.length_cons]
          omega
        rw [harith] at hp
        exact hp

theorem adaptiveWith_outcome_of_some (enc : AdaptiveQualityLevel → Option (List Nat))
    (targetSize : Nat) (qualityLevels : List AdaptiveQualityLevel) (b : List Nat)
    (h : (adaptiveLoop enc targetSize qualityLevels none [TmpFile.video]).1 = some b) :
    (adaptiveVideoToWebpWith enc targetSize qualityLevels).outcome = Except.ok b := by
  unfold adaptiveVideoToWebpWith
  simp only [h]

theorem adaptiveWith_outcome_of_none (enc : AdaptiveQualityLevel → Option (List Nat))
    (targetSize : Nat) (qualityLevels : List AdaptiveQualityLevel)
    (h : (adaptiveLoop enc targetSize qualityLevels none [TmpFile.video]).1 = none) :
    (adaptiveVideoToWebpWith enc targetSize qualityLevels).outcome =
      Except.error ConvError.exhausted := by
  unfold adaptiveVideoToWebpWith
  simp only [h]

theorem adaptiveWith_ok_iff (enc : AdaptiveQualityLevel → Option (List Nat))
    (targetSize : Nat) (qualityLevels : List AdaptiveQualityLevel) :
    (∃ b, (adaptiveVideoToWebpWith enc targetSize qualityLevels).outcome = Except.ok b) ↔
      (∃ b, (adaptiveLoop enc targetSize qualityLevels none [TmpFile.video]).1 = some b) := by
  unfold adaptiveVideoToWebpWith
  cases h : (adaptiveLoop enc targetSize qualityLevels none [TmpFile.video]).1 with
  | none => simp [h]
  | some buffer => simp [h]

theorem videoToGifWith_outcome_of_some (enc : OptimizedRequest → Option (List Nat))
    (qualityLevels : List OptimizedQualityLevel) (b : List Nat)
    (h : (videoToGifLoop enc videoToGifTarget 0 qualityLevels none [TmpFile.video]).1 =
      Except.ok (some b)) :
    (videoToGifWith enc qualityLevels).outcome = Except.ok b := by
  unfold videoToGifWith
  cases hr : videoToGifLoop enc videoToGifTarget 0 qualityLevels none [TmpFile.video] with
  | mk e rest =>
    rw [hr] at h
    simp only at h
    cases rest with
    | mk inv fs =>
      rw [h] at hr
      simp [hr]

theorem videoToGifWith_outcome_of_error (enc : OptimizedRequest → Option (List Nat))
    (qualityLevels : List OptimizedQualityLevel)
    (h : (videoToGifLoop enc videoToGifTarget 0 qualityLevels none [TmpFile.video]).1 =
      Except.error ()) :
    (videoToGifWith enc qualityLevels).outcome = Except.error ConvError.codecFailure := by
  unfold videoToGifWith
  cases hr : videoToGifLoop enc videoToGifTarget 0 qualityLevels none [TmpFile.video] with
  | mk e rest =>
    rw [hr] at h
    simp only at h
    cases rest with
    | mk inv fs =>
      rw [h] at hr
      simp [hr]

theorem videoToGifWith_ok_iff (enc : OptimizedRequest → Option (List Nat))
    (qualityLevels : List OptimizedQualityLevel) :
    (∃ b, (videoToGifWith enc qualityLevels).outcome = Except.ok b) ↔
      (∃ b, (videoToGifLoop enc videoToGifTarget 0 qualityLevels none [TmpFile.video]).1 =
        Except.ok (some b)) := by
  unfold videoToGifWith
  cases hr : videoToGifLoop enc videoToGifTarget 0 qualityLevels none [TmpFile.video] with
  | mk e rest =>
    cases e with
    | error u => simp [hr]
    | ok result =>
      cases result with
      | none => simp [hr]
      | some buffer => simp [hr]

/-- C1: first-fit greedy acceptance.  For every codec behaviour, every
target size and every ladder of quality presets tried in declared order,
when each preset before `p` fails the size check (failed invocation or
oversized output) and `p`'s encoded output satisfies
`sizeBytes <= targetSizeBytes`, both transcoder implementations accept
exactly `p`: they return `p`'s buffer, and the codec invocations issued
are precisely those for the ladder prefix up to and including `p`, so no
later preset's codec is ever invoked and no earlier preset that fails the
size check is accepted. -/
theorem C1_first_fit_greedy_acceptance :
    (∀ (enc : AdaptiveQualityLevel → Option (List Nat)) (targetSize : Nat)
      (pre : List AdaptiveQualityLevel) (p : AdaptiveQualityLevel)
      (post : List AdaptiveQualityLevel) (b : List Nat),
      (∀ q ∈ pre, fitsAdaptive enc targetSize q = false) →
      enc p = some b → b.length ≤ targetSize →
      (adaptiveVideoToWebpWith enc targetSize (pre ++ p :: post)).outcome = Except.ok b ∧
      (adaptiveVideoToWebpWith enc targetSize (pre ++ p :: post)).invoked = pre ++ [p]) ∧
    (∀ (enc : OptimizedRequest → Option (List Nat)) (pre : List OptimizedQualityLevel)
      (p : OptimizedQualityLevel) (post : List OptimizedQualityLevel) (b : List Nat),
      (∀ q ∈ optimizedRequests 0 pre, fitsOptimized enc videoToGifTarget q = false) →
      enc { settings := p, decimate := decide (1 < pre.length) } = some b →
      b.length ≤ videoToGifTarget →
      (videoToGifWith enc (pre ++ p :: post)).outcome = Except.ok b ∧
      (videoToGifWith enc (pre ++ p :: post)).invoked =
        optimizedRequests 0 pre ++ [{ settings := p, decimate := decide (1 < pre.length) }]) := by
  constructor
  · intro enc targetSize pre p post b h1 h2 h3
    have hrun := adaptiveLoop_firstFit enc targetSize pre p post none [TmpFile.video] b h1 h2 h3
    constructor
    · unfold adaptiveVideoToWebpWith
      simp [hrun]
    · unfold adaptiveVideoToWebpWith
      simp [hrun]
  · intro enc pre p post b h1 h2 h3
    have h2' : enc { settings := p, decimate := decide (1 < 0 + pre.length) } = some b := by
      rw [Nat.zero_add]
      exact h2
    have hrun := videoToGifLoop_firstFit enc pre 0 p post none [TmpFile.video] b h1 h2' h3
    rw [Nat.zero_add] at hrun
    constructor
    · unfold videoToGifWith
      simp [hrun]
    · unfold videoToGifWith
      simp [hrun]

theorem C1_first_fit_greedy_acceptance_witness :
    ((adaptiveVideoToWebpWith
        (fun s => if s.quality == 7 then none else some [0, 0]) 3
        ([{ quality := 7, fps := 1, duration := 1, compression := 1 }] ++
          { quality := 9, fps := 1, duration := 1, compression := 1 } ::
            [{ quality := 5, fps := 1, duration := 1, compression := 1 }])).outcome =
      Except.ok [0, 0] ∧
     (adaptiveVideoToWebpWith
        (fun s => if s.quality == 7 then none else some [0, 0]) 3
        ([{ quality := 7, fps := 1, duration := 1, compression := 1 }] ++
          { quality := 9, fps := 1, duration := 1, compression := 1 } ::
            [{ quality := 5, fps := 1, duration := 1, compression := 1 }])).invoked =
      [{ quality := 7, fps := 1, duration := 1, compression := 1 }] ++
        [{ quality := 9, fps := 1, duration := 1, compression := 1 }]) ∧
    ((videoToGifWith
        (fun r => if r.settings.quality == 7 then none else some [0])
        ([{ quality := 7, fps := 1, duration := 1, compression := 1, method := 1 }] ++
          { quality := 9, fps := 1, duration := 1, compression := 1, method := 1 } ::
            [{ quality := 5, fps := 1, duration := 1, compression := 1, method := 1 }])).outcome =
      Except.ok [0] ∧
     (videoToGifWith
        (fun r => if r.settings.quality == 7 then none else some [0])
        ([{ quality := 7, fps := 1, duration := 1, compression := 1, method := 1 }] ++
          { quality := 9, fps := 1, duration := 1, compression := 1, method := 1 } ::
            [{ quality := 5, fps := 1, duration := 1, compression := 1, method := 1 }])).invoked =
      optimizedRequests 0 [{ quality := 7, fps := 1, duration := 1, compression := 1, method := 1 }] ++
        [{ settings := { quality := 9, fps := 1, duration := 1, compression := 1, method := 1 }
           decimate :=
            decide (1 < [({ quality := 7, fps := 1, duration := 1, compression := 1, method := 1 } :
              OptimizedQualityLevel)].length) }]) :=
  ⟨C1_first_fit_greedy_acceptance.1
      (fun s => if s.quality == 7 then none else some [0, 0]) 3
      [{ quality := 7, fps := 1, duration := 1, compression := 1 }]
      { quality := 9, fps := 1, duration := 1, compression := 1 }
      [{ quality := 5, fps := 1, duration := 1, compression := 1 }]
      [0, 0] (by decide) (by decide) (by decide),
   C1_first_fit_greedy_acceptance.2
      (fun r => if r.settings.quality == 7 then none else some [0])
      [{ quality := 7, fps := 1, duration := 1, compression := 1, method := 1 }]
      { quality := 9, fps := 1, duration := 1, compression := 1, method := 1 }
      [{ quality := 5, fps := 1, duration := 1, compression := 1, method := 1 }]
      [0] (by decide) (by decide) (by decide)⟩

/-- C2 (amended): the claim's forward direction holds — if every codec
invocation across the ladder fails, the transcode raises (the adaptive
module raises its exhaustion error; the optimized module rethrows the
final preset's codec error) — but the claimed converse does not.
Precisely, a transcode returns a buffer if and only if some ladder
preset's output fits the target OR the final preset's invocation produces
a buffer; an oversized success on a non-final preset is discarded, so if
afterwards the final preset's invocation fails, the call raises even
though an invocation succeeded. -/
theorem C2_exhaustion_amended :
    (∀ (enc : AdaptiveQualityLevel → Option (List Nat)) (targetSize : Nat),
      (∀ q ∈ adaptiveQualityLevels, enc q = none) →
      (adaptiveVideoToWebp enc targetSize).outcome = Except.error ConvError.exhausted) ∧
    (∀ (enc : AdaptiveQualityLevel → Option (List Nat)) (targetSize : Nat),
      (∃ b, (adaptiveVideoToWebp enc targetSize).outcome = Except.ok b) ↔
        ((∃ q ∈ adaptiveQualityLevels, fitsAdaptive enc targetSize q = true) ∨
          enc { quality := 20, fps := 5, duration := 3, compression := 6 } ≠ none)) ∧
    (∀ (enc : OptimizedRequest → Option (List Nat)),
      (∀ q ∈ optimizedRequests 0 optimizedQualityLevels, enc q = none) →
      (videoToGif enc).outcome = Except.error ConvError.codecFailure) ∧
    (∀ (enc : OptimizedRequest → Option (List Nat)),
      (∃ b, (videoToGif enc).outcome = Except.ok b) ↔
        ((∃ q ∈ optimizedRequests 0 optimizedQualityLevels,
            fitsOptimized enc videoToGifTarget q = true) ∨
          enc { settings := { quality := 25, fps := 5, duration := 3, compression := 6, method := 6 },
                decimate := true } ≠ none)) := by
  have hdecA : adaptiveQualityLevels =
      [{ quality := 60, fps := 12, duration := 8, compression := 4 }
      , { quality := 50, fps := 10, duration := 6, compression := 5 }
      , { quality := 40, fps := 8, duration := 5, compression := 6 }
      , { quality := 30, fps := 6, duration := 4, compression := 6 }] ++
        [{ quality := 20, fps := 5, duration := 3, compression := 6 }] := rfl
  have hdecO : optimizedQualityLevels =
      [{ quality := 50, fps := 10, duration := 6, compression := 5, method := 4 }
      , { quality := 40, fps := 8, duration := 5, compression := 6, method := 6 }
      , { quality := 30, fps := 6, duration := 4, compression := 6, method := 6 }] ++
        [{ quality := 25, fps := 5, duration := 3, compression := 6, method := 6 }] := rfl
  refine ⟨?_, ?_, ?_, ?_⟩
  · intro enc targetSize hall
    have hfits : ∀ q ∈ adaptiveQualityLevels, fitsAdaptive enc targetSize q = false := by
      intro q hq
      rw [fitsAdaptive, hall q hq]
    have hlast : enc { quality := 20, fps := 5, duration := 3, compression := 6 } = none :=
      hall _ (by decide)
    rw [hdecA] at hfits
    rw [adaptiveVideoToWebp]
    apply adaptiveWith_outcome_of_none
    rw [hdecA]
    exact adaptiveLoop_noFit_lastFail enc targetSize _ _ [TmpFile.video] hfits hlast
  · intro enc targetSize
    rw [adaptiveVideoToWebp, adaptiveWith_ok_iff]
    have hfitok : (∃ q ∈ adaptiveQualityLevels, fitsAdaptive enc targetSize q = true) →
        ∃ b, (adaptiveLoop enc targetSize adaptiveQualityLevels none [TmpFile.video]).1 = some b := by
      intro hfit
      obtain ⟨pre, x, post, hl, hpre, hx⟩ :=
        exists_first_fit (fitsAdaptive enc targetSize) _ hfit
      cases hex : enc x with
      | none =>
        rw [fitsAdaptive, hex] at hx
        cases hx
      | some b =>
        have hlen : b.length ≤ targetSize := by
          rw [fitsAdaptive, hex] at hx
          simpa using hx
        refine ⟨b, ?_⟩
        rw [hl, adaptiveLoop_firstFit enc targetSize pre x post none [TmpFile.video] b hpre hex hlen]
    constructor
    · rintro ⟨b, hb⟩
      by_cases hfit : ∃ q ∈ adaptiveQualityLevels, fitsAdaptive enc targetSize q = true
      · exact Or.inl hfit
      · right
        intro hnone
        have hfits : ∀ q ∈ adaptiveQualityLevels, fitsAdaptive enc targetSize q = false := by
          intro q hq
          rcases Bool.eq_false_or_eq_true (fitsAdaptive enc targetSize q) with h | h
          · exact absurd ⟨q, hq, h⟩ hfit
          · exact h
        rw [hdecA] at hfits
        have hz := adaptiveLoop_noFit_lastFail enc targetSize _ _ [TmpFile.video] hfits hnone
        rw [hdecA, hz] at hb
        cases hb
    · rintro (hfit | hlast)
      · exact hfitok hfit
      · by_cases hfit : ∃ q ∈ adaptiveQualityLevels, fitsAdaptive enc targetSize q = true
        · exact hfitok hfit
        · cases hlaste : enc { quality := 20, fps := 5, duration := 3, compression := 6 } with
          | none => exact absurd hlaste hlast
          | some b =>
            refine ⟨b, ?_⟩
            have hfits : ∀ q ∈ adaptiveQualityLevels, fitsAdaptive enc targetSize q = false := by
              intro q hq
              rcases Bool.eq_false_or_eq_true (fitsAdaptive enc targetSize q) with h | h
              · exact absurd ⟨q, hq, h⟩ hfit
              · exact h
            rw [hdecA] at hfits
            rw [hdecA]
            exact adaptiveLoop_noFit_last enc targetSize _ _ none [TmpFile.video] b hfits hlaste
  · intro enc hall
    have hfits : ∀ q ∈ optimizedRequests 0 optimizedQualityLevels,
        fitsOptimized enc videoToGifTarget q = false := by
      intro q hq
      rw [fitsOptimized, hall q hq]
    have hlast : enc { settings := { quality := 25, fps := 5, duration := 3, compression := 6, method := 6 }, decimate := true } = none :=
      hall _ (by decide)
    rw [hdecO] at hfits
    rw [videoToGif]
    apply videoToGifWith_outcome_of_error
    rw [hdecO]
    exact videoToGifLoop_noFit_lastFail enc _ 0 _ none [TmpFile.video] hfits hlast
  · intro enc
    rw [videoToGif, videoToGifWith_ok_iff]
    have hfitok : (∃ q ∈ optimizedRequests 0 optimizedQualityLevels,
          fitsOptimized enc videoToGifTarget q = true) →
        ∃ b, (videoToGifLoop enc videoToGifTarget 0 optimizedQualityLevels none [TmpFile.video]).1 =
          Except.ok (some b) := by
      intro hfit
      obtain ⟨pre, x, post, hl, hpre, hx⟩ := exists_first_fit_optimized enc _ 0 hfit
      cases hex : enc { settings := x, decimate := decide (1 < 0 + pre.length) } with
      | none =>
        rw [fitsOptimized, hex] at hx
        cases hx
      | some b =>
        have hlen : b.length ≤ videoToGifTarget := by
          rw [fitsOptimized, hex] at hx
          simpa using hx
        refine ⟨b, ?_⟩
        rw [hl, videoToGifLoop_firstFit enc pre 0 x post none [TmpFile.video] b hpre hex hlen]
    constructor
    · rintro ⟨b, hb⟩
      by_cases hfit : ∃ q ∈ optimizedRequests 0 optimizedQualityLevels,
          fitsOptimized enc videoToGifTarget q = true
      · exact Or.inl hfit
      · right
        intro hnone
        have hfits : ∀ q ∈ optimizedRequests 0 optimizedQualityLevels,
            fitsOptimized enc videoToGifTarget q = false := by
          intro q hq
          rcases Bool.eq_false_or_eq_true (fitsOptimized enc videoToGifTarget q) with h | h
          · exact absurd ⟨q, hq, h⟩ hfit
          · exact h
        rw [hdecO] at hfits
        have hz := videoToGifLoop_noFit_lastFail enc _ 0 _ none [TmpFile.video] hfits hnone
        rw [hdecO, hz] at hb
        cases hb
    · rintro (hfit | hlast)
      · exact hfitok hfit
      · by_cases hfit : ∃ q ∈ optimizedRequests 0 optimizedQualityLevels,
            fitsOptimized enc videoToGifTarget q = true
        · exact hfitok hfit
        · cases hlaste : enc { settings := { quality := 25, fps := 5, duration := 3, compression := 6, method := 6 }, decimate := true } with
          | none => exact absurd hlaste hlast
          | some b =>
            refine ⟨b, ?_⟩
            have hfits : ∀ q ∈ optimizedRequests 0 optimizedQualityLevels,
                fitsOptimized enc videoToGifTarget q = false := by
              intro q hq
              rcases Bool.eq_false_or_eq_true (fitsOptimized enc videoToGifTarget q) with h | h
              · exact absurd ⟨q, hq, h⟩ hfit
              · exact h
            rw [hdecO] at hfits
            rw [hdecO]
            exact videoToGifLoop_noFit_last enc _ 0 _ none [TmpFile.video] _ hfits hlaste

theorem C2_exhaustion_amended_witness :
    (adaptiveVideoToWebp (fun _ => none) 7).outcome = Except.error ConvError.exhausted ∧
    (videoToGif (fun _ => none)).outcome = Except.error ConvError.codecFailure :=
  ⟨C2_exhaustion_amended.1 (fun _ => none) 7 (by decide),
   C2_exhaustion_amended.2.2.1 (fun _ => none) (by decide)⟩

theorem C2_exhaustion_counterexample :
    (adaptiveVideoToWebp (fun s => if s.quality == 60 then some [0] else none) 0).outcome =
      Except.error ConvError.exhausted ∧
    ({ quality := 60, fps := 12, duration := 8, compression := 4 } : AdaptiveQualityLevel) ∈
      (adaptiveVideoToWebp (fun s => if s.quality == 60 then some [0] else none) 0).invoked ∧
    (fun (s : AdaptiveQualityLevel) => if s.quality == 60 then some [0] else none)
        { quality := 60, fps := 12, duration := 8, compression := 4 } = some [0] := by
  decide

/-- C3 (amended): when no ladder preset's output fits the target, the
transcode returns the final ladder preset's buffer exactly when the final
preset's invocation produces output; buffers produced by earlier presets
are discarded rather than retained as fallback, so if the final preset's
invocation fails the call raises even though an earlier preset produced
valid (oversized) output. -/
theorem C3_oversized_fallback_amended :
    (∀ (enc : AdaptiveQualityLevel → Option (List Nat)) (targetSize : Nat) (b : List Nat),
      (∀ q ∈ adaptiveQualityLevels, fitsAdaptive enc targetSize q = false) →
      enc { quality := 20, fps := 5, duration := 3, compression := 6 } = some b →
      (adaptiveVideoToWebp enc targetSize).outcome = Except.ok b) ∧
    (∀ (enc : OptimizedRequest → Option (List Nat)) (b : List Nat),
      (∀ q ∈ optimizedRequests 0 optimizedQualityLevels,
        fitsOptimized enc videoToGifTarget q = false) →
      enc { settings := { quality := 25, fps := 5, duration := 3, compression := 6, method := 6 }, decimate := true } = some b →
      (videoToGif enc).outcome = Except.ok b) := by
  have hdecA : adaptiveQualityLevels =
      [{ quality := 60, fps := 12, duration := 8, compression := 4 }
      , { quality := 50, fps := 10, duration := 6, compression := 5 }
      , { quality := 40, fps := 8, duration := 5, compression := 6 }
      , { quality := 30, fps := 6, duration := 4, compression := 6 }] ++
        [{ quality := 20, fps := 5, duration := 3, compression := 6 }] := rfl
  have hdecO : optimizedQualityLevels =
      [{ quality := 50, fps := 10, duration := 6, compression := 5, method := 4 }
      , { quality := 40, fps := 8, duration := 5, compression := 6, method := 6 }
      , { quality := 30, fps := 6, duration := 4, compression := 6, method := 6 }] ++
        [{ quality := 25, fps := 5, duration := 3, compression := 6, method := 6 }] := rfl
  constructor
  · intro enc targetSize b hfits hlast
    rw [hdecA] at hfits
    rw [adaptiveVideoToWebp]
    apply adaptiveWith_outcome_of_some
    rw [hdecA]
    exact adaptiveLoop_noFit_last enc targetSize _ _ none [TmpFile.video] b hfits hlast
  · intro enc b hfits hlast
    rw [hdecO] at hfits
    rw [videoToGif]
    apply videoToGifWith_outcome_of_some
    rw [hdecO]
    exact videoToGifLoop_noFit_last enc _ 0 _ none [TmpFile.video] b hfits hlast

theorem C3_oversized_fallback_amended_witness :
    (adaptiveVideoToWebp (fun _ => some [0]) 0).outcome = Except.ok [0] ∧
    (videoToGif (fun _ => some (List.replicate 512001 0))).outcome =
      Except.ok (List.replicate 512001 0) :=
  ⟨C3_oversized_fallback_amended.1 (fun _ => some [0]) 0 [0]
      (by intro q hq; simp [fitsAdaptive]) rfl,
   C3_oversized_fallback_amended.2 (fun _ => some (List.replicate 512001 0))
      (List.replicate 512001 0)
      (by
        intro q hq
        show decide ((List.replicate 512001 (0 : Nat)).length ≤ videoToGifTarget) = false
        rw [decide_eq_false_iff_not, List.length_replicate]
        simp only [videoToGifTarget]
        omega)
      rfl⟩

theorem C3_oversized_fallback_counterexample :
    (adaptiveVideoToWebp (fun s => if s.quality == 60 then some [0, 0] else none) 1).outcome =
      Except.error ConvError.exhausted ∧
    (fun (s : AdaptiveQualityLevel) => if s.quality == 60 then some [0, 0] else none)
        { quality := 60, fps := 12, duration := 8, compression := 4 } = some [0, 0] ∧
    (∀ b, (adaptiveVideoToWebp (fun s => if s.quality == 60 then some [0, 0] else none) 1).outcome ≠
      Except.ok b) := by
  refine ⟨by decide, by decide, ?_⟩
  intro b hb
  rw [show (adaptiveVideoToWebp (fun s => if s.quality == 60 then some [0, 0] else none) 1).outcome =
    Except.error ConvError.exhausted from by decide] at hb
  cases hb

/-- C9: the claimed scoped cleanup fails in `videoToGif_optimized.ts`.
When every codec invocation fails, the final attempt rethrows the codec
error from inside the loop (source line 90) before the input video file is
unlinked (lines 97-99), so the temp video file written for the input
outlives the call on the hard-failure exit path.  The adaptive module, by
contrast, reaches its input-file cleanup before raising, so the same
scenario there leaves no temp file behind.  (Per-attempt WebP files are
unlinked immediately after each successful attempt, and a failed codec
invocation produces no file under the codec output contract.) -/
theorem C9_temp_file_leak_on_rethrow :
    (videoToGif (fun _ => none)).files = [TmpFile.video] ∧
    (videoToGif (fun _ => none)).outcome = Except.error ConvError.codecFailure ∧
    (adaptiveVideoToWebp (fun _ => none) (500 * 1024)).files = [] := by
  decide

theorem validateFileSize_dimensions (buffer : StickerBuffer) (isAnimated : Bool)
    (result : ValidationResult) :
    (validateFileSize buffer isAnimated result).dimensions = result.dimensions := by
  simp only [validateFileSize]
  split_ifs <;> rfl

theorem validateFileSize_metadata (buffer : StickerBuffer) (isAnimated : Bool)
    (result : ValidationResult) :
    (validateFileSize buffer isAnimated result).metadata = result.metadata := by
  simp only [validateFileSize]
  split_ifs <;> rfl

theorem validateFileSize_fileSize (buffer : StickerBuffer) (isAnimated : Bool)
    (result : ValidationResult) :
    (validateFileSize buffer isAnimated result).fileSize =
      { size := buffer.length
        isValid := decide (buffer.length ≤ if isAnimated then ANIMATED_MAX_SIZE else STATIC_MAX_SIZE)
        limit := if isAnimated then ANIMATED_MAX_SIZE else STATIC_MAX_SIZE
        type := result.fileSize.type } := by
  simp only [validateFileSize]
  split_ifs <;> rfl

theorem validateFileSize_errors (buffer : StickerBuffer) (isAnimated : Bool)
    (result : ValidationResult) :
    (validateFileSize buffer isAnimated result).errors = result.errors ++
      (if buffer.length ≤ (if isAnimated then ANIMATED_MAX_SIZE else STATIC_MAX_SIZE) then []
       else [VError.fileSizeExceeded buffer.length
          (if isAnimated then ANIMATED_MAX_SIZE else STATIC_MAX_SIZE) isAnimated]) := by
  simp only [validateFileSize]
  split_ifs <;> simp

theorem validateFileSize_warnings (buffer : StickerBuffer) (isAnimated : Bool)
    (result : ValidationResult) :
    (validateFileSize buffer isAnimated result).warnings = result.warnings ++
      (if RECOMMENDED_FILE_SIZE * 3 < buffer.length then [VWarning.fileSizeLarge buffer.length]
       else []) := by
  simp only [validateFileSize]
  split_ifs <;> simp

theorem validateDimensions_fileSize (buffer : StickerBuffer) (result : ValidationResult) :
    (validateDimensions buffer result).fileSize = result.fileSize := by
  unfold validateDimensions
  cases buffer.sharpMeta with
  | ok m =>
    simp only []
    split_ifs <;> rfl
  | error c => rfl

theorem validateDimensions_metadata (buffer : StickerBuffer) (result : ValidationResult) :
    (validateDimensions buffer result).metadata = result.metadata := by
  unfold validateDimensions
  cases buffer.sharpMeta with
  | ok m =>
    simp only []
    split_ifs <;> rfl
  | error c => rfl

theorem validateDimensions_warnings (buffer : StickerBuffer) (result : ValidationResult) :
    (validateDimensions buffer result).warnings = result.warnings := by
  unfold validateDimensions
  cases buffer.sharpMeta with
  | ok m =>
    simp only []
    split_ifs <;> rfl
  | error c => rfl

theorem validateDimensions_ok_dimensions (buffer : StickerBuffer) (result : ValidationResult)
    (m : SharpMetadata) (h : buffer.sharpMeta = Except.ok m) :
    (validateDimensions buffer result).dimensions =
      { width := m.width.getD 0
        height := m.height.getD 0
        isValid := decide (m.width.getD 0 = STICKER_SIZE) && decide (m.height.getD 0 = STICKER_SIZE) } := by
  unfold validateDimensions
  rw [h]
  simp only []
  split_ifs <;> rfl

theorem validateDimensions_ok_errors (buffer : StickerBuffer) (result : ValidationResult)
    (m : SharpMetadata) (h : buffer.sharpMeta = Except.ok m) :
    (validateDimensions buffer result).errors = result.errors ++
      (if (decide (m.width.getD 0 = STICKER_SIZE) && decide (m.height.getD 0 = STICKER_SIZE)) = true
       then []
       else [VError.dimensionsInvalid (m.width.getD 0) (m.height.getD 0)]) := by
  unfold validateDimensions
  rw [h]
  simp only []
  split_ifs <;> simp_all

theorem validateDimensions_err_dimensions (buffer : StickerBuffer) (result : ValidationResult)
    (cause : String) (h : buffer.sharpMeta = Except.error cause) :
    (validateDimensions buffer result).dimensions =
      { width := result.dimensions.width, height := result.dimensions.height, isValid := false } := by
  unfold validateDimensions
  rw [h]

theorem validateDimensions_err_errors (buffer : StickerBuffer) (result : ValidationResult)
    (cause : String) (h : buffer.sharpMeta = Except.error cause) :
    (validateDimensions buffer result).errors =
      result.errors ++ [VError.dimensionsReadFailed cause] := by
  unfold validateDimensions
  rw [h]

theorem validateMetadata_fileSize (metadata : IStickerOptions) (result : ValidationResult) :
    (validateMetadata metadata result).fileSize = result.fileSize := by
  simp only [validateMetadata]
  split_ifs <;> rfl

theorem validateMetadata_dimensions (metadata : IStickerOptions) (result : ValidationResult) :
    (validateMetadata metadata result).dimensions = result.dimensions := by
  simp only [validateMetadata]
  split_ifs <;> rfl

theorem validateMetadata_errors (metadata : IStickerOptions) (result : ValidationResult) :
    (validateMetadata metadata result).errors = result.errors ++
      ((if PACK_NAME_MAX_LENGTH < (metadata.pack.getD "").length then [VError.packNameTooLong] else []) ++
       (if AUTHOR_MAX_LENGTH < (metadata.author.getD "").length then [VError.authorTooLong] else []) ++
       (if ID_MAX_LENGTH < (metadata.id.getD "").length then [VError.idTooLong] else []) ++
       (if (!(metadata.id.getD "").data.isEmpty && !(metadata.id.getD "").data.all allowedIdChar) = true
        then [VError.idInvalidChars] else []) ++
       (if MAX_CATEGORIES_PER_STICKER < (metadata.categories.getD []).length
        then [VError.tooManyCategories (metadata.categories.getD []).length] else [])) := by
  simp only [validateMetadata]
  split_ifs <;> simp

theorem validateMetadata_warnings (metadata : IStickerOptions) (result : ValidationResult) :
    (validateMetadata metadata result).warnings = result.warnings ++
      ((if (metadata.categories.getD []).length = 0 then [VWarning.noCategories] else []) ++
       [VWarning.whiteStrokeAdvisory]) := by
  simp only [validateMetadata]
  split_ifs <;> simp

theorem validateMetadata_pack (metadata : IStickerOptions) (result : ValidationResult) :
    (validateMetadata metadata result).metadata.pack =
      { value := metadata.pack.getD ""
        isValid := if PACK_NAME_MAX_LENGTH < (metadata.pack.getD "").length then false
          else result.metadata.pack.isValid
        limit := result.metadata.pack.limit } := by
  simp only [validateMetadata]
  split_ifs <;> rfl

theorem validateMetadata_author (metadata : IStickerOptions) (result : ValidationResult) :
    (validateMetadata metadata result).metadata.author =
      { value := metadata.author.getD ""
        isValid := if AUTHOR_MAX_LENGTH < (metadata.author.getD "").length then false
          else result.metadata.author.isValid
        limit := result.metadata.author.limit } := by
  simp only [validateMetadata]
  split_ifs <;> rfl

theorem validateMetadata_id (metadata : IStickerOptions) (result : ValidationResult) :
    (validateMetadata metadata result).metadata.id =
      { value := metadata.id.getD ""
        isValid :=
          if (!(metadata.id.getD "").data.isEmpty && !(metadata.id.getD "").data.all allowedIdChar) = true
          then false
          else if ID_MAX_LENGTH < (metadata.id.getD "").length then false
          else result.metadata.id.isValid
        limit := result.metadata.id.limit } := by
  simp only [validateMetadata]
  split_ifs <;> rfl

theorem validateMetadata_categories (metadata : IStickerOptions) (result : ValidationResult) :
    (validateMetadata metadata result).metadata.categories =
      { value := metadata.categories.getD []
        isValid :=
          if MAX_CATEGORIES_PER_STICKER < (metadata.categories.getD []).length then false
          else result.metadata.categories.isValid
        count := (metadata.categories.getD []).length
        limit := result.metadata.categories.limit } := by
  simp only [validateMetadata]
  split_ifs <;> rfl

theorem validateAnimatedSticker_decomp (buffer : StickerBuffer) (result : ValidationResult) :
    ∃ t, validateAnimatedSticker buffer result = { result with warnings := result.warnings ++ t } := by
  unfold validateAnimatedSticker
  cases buffer.sharpMeta with
  | ok m =>
    simp only []
    cases m.pages with
    | none => exact ⟨[], by simp⟩
    | some pages =>
      simp only []
      split_ifs with h1 h2
      · exact ⟨[VWarning.animatedDurationAdvisory, VWarning.highFrameCount pages], by simp⟩
      · exact ⟨[VWarning.animatedDurationAdvisory], by simp⟩
      · exact ⟨[], by simp⟩
  | error c => exact ⟨[VWarning.animatedValidationIncomplete c], rfl⟩

theorem validateAnimatedSticker_errors (buffer : StickerBuffer) (result : ValidationResult) :
    (validateAnimatedSticker buffer result).errors = result.errors := by
  obtain ⟨t, ht⟩ := validateAnimatedSticker_decomp buffer result
  rw [ht]

theorem validateAnimatedSticker_fileSize (buffer : StickerBuffer) (result : ValidationResult) :
    (validateAnimatedSticker buffer result).fileSize = result.fileSize := by
  obtain ⟨t, ht⟩ := validateAnimatedSticker_decomp buffer result
  rw [ht]

theorem validateAnimatedSticker_dimensions (buffer : StickerBuffer) (result : ValidationResult) :
    (validateAnimatedSticker buffer result).dimensions = result.dimensions := by
  obtain ⟨t, ht⟩ := validateAnimatedSticker_decomp buffer result
  rw [ht]

theorem validateAnimatedSticker_metadata (buffer : StickerBuffer) (result : ValidationResult) :
    (validateAnimatedSticker buffer result).metadata = result.metadata := by
  obtain ⟨t, ht⟩ := validateAnimatedSticker_decomp buffer result
  rw [ht]

theorem validateAnimatedSticker_warnings_append (buffer : StickerBuffer)
    (result : ValidationResult) :
    ∃ t, (validateAnimatedSticker buffer result).warnings = result.warnings ++ t := by
  obtain ⟨t, ht⟩ := validateAnimatedSticker_decomp buffer result
  exact ⟨t, by rw [ht]⟩

theorem validateSticker_errors (buffer : StickerBuffer) (metadata : IStickerOptions) :
    (validateSticker buffer metadata).errors =
      (if buffer.length ≤ (if isAnimatedSticker buffer then ANIMATED_MAX_SIZE else STATIC_MAX_SIZE)
       then []
       else [VError.fileSizeExceeded buffer.length
         (if isAnimatedSticker buffer then ANIMATED_MAX_SIZE else STATIC_MAX_SIZE)
         (isAnimatedSticker buffer)]) ++
      ((match buffer.sharpMeta with
        | Except.ok m =>
          if (decide (m.width.getD 0 = STICKER_SIZE) && decide (m.height.getD 0 = STICKER_SIZE)) = true
          then []
          else [VError.dimensionsInvalid (m.width.getD 0) (m.height.getD 0)]
        | Except.error cause => [VError.dimensionsReadFailed cause]) ++
       ((if PACK_NAME_MAX_LENGTH < (metadata.pack.getD "").length then [VError.packNameTooLong] else []) ++
        (if AUTHOR_MAX_LENGTH < (metadata.author.getD "").length then [VError.authorTooLong] else []) ++
        (if ID_MAX_LENGTH < (metadata.id.getD "").length then [VError.idTooLong] else []) ++
        (if (!(metadata.id.getD "").data.isEmpty && !(metadata.id.getD "").data.all allowedIdChar) = true
         then [VError.idInvalidChars] else []) ++
        (if MAX_CATEGORIES_PER_STICKER < (metadata.categories.getD []).length
         then [VError.tooManyCategories (metadata.categories.getD []).length] else []))) := by
  have h0 : (validateSticker buffer metadata).errors = (validateStickerCore buffer metadata).errors := rfl
  rw [h0]
  unfold validateStickerCore
  simp only []
  cases hA : isAnimatedSticker buffer with
  | true =>
    simp only [eq_self_iff_true, if_true]
    rw [validateAnimatedSticker_errors, validateMetadata_errors]
    cases hm : buffer.sharpMeta with
    | ok m =>
      rw [validateDimensions_ok_errors _ _ m hm, validateFileSize_errors]
      simp [initialResult, List.append_assoc]
    | error cause =>
      rw [validateDimensions_err_errors _ _ cause hm, validateFileSize_errors]
      simp [initialResult, List.append_assoc]
  | false =>
    simp only [Bool.false_eq_true, if_false]
    rw [validateMetadata_errors]
    cases hm : buffer.sharpMeta with
    | ok m =>
      rw [validateDimensions_ok_errors _ _ m hm, validateFileSize_errors]
      simp [initialResult, List.append_assoc]
    | error cause =>
      rw [validateDimensions_err_errors _ _ cause hm, validateFileSize_errors]
      simp [initialResult, List.append_assoc]

theorem validateSticker_fileSize (buffer : StickerBuffer) (metadata : IStickerOptions) :
    (validateSticker buffer metadata).fileSize =
      { size := buffer.length
        isValid := decide (buffer.length ≤
          (if isAnimatedSticker buffer then ANIMATED_MAX_SIZE else STATIC_MAX_SIZE))
        limit := if isAnimatedSticker buffer then ANIMATED_MAX_SIZE else STATIC_MAX_SIZE
        type := if isAnimatedSticker buffer then SizeType.animated else SizeType.static } := by
  have h0 : (validateSticker buffer metadata).fileSize = (validateStickerCore buffer metadata).fileSize := rfl
  rw [h0]
  unfold validateStickerCore
  simp only []
  cases hA : isAnimatedSticker buffer with
  | true =>
    simp only [eq_self_iff_true, if_true]
    rw [validateAnimatedSticker_fileSize, validateMetadata_fileSize, validateDimensions_fileSize,
      validateFileSize_fileSize]
    rfl
  | false =>
    simp only [Bool.false_eq_true, if_false]
    rw [validateMetadata_fileSize, validateDimensions_fileSize, validateFileSize_fileSize]
    rfl

theorem validateSticker_dimensions (buffer : StickerBuffer) (metadata : IStickerOptions) :
    (validateSticker buffer metadata).dimensions =
      (match buffer.sharpMeta with
       | Except.ok m =>
         { width := m.width.getD 0
           height := m.height.getD 0
           isValid := decide (m.width.getD 0 = STICKER_SIZE) && decide (m.height.getD 0 = STICKER_SIZE) }
       | Except.error _ => { width := 0, height := 0, isValid := false }) := by
  have h0 : (validateSticker buffer metadata).dimensions = (validateStickerCore buffer metadata).dimensions := rfl
  rw [h0]
  unfold validateStickerCore
  simp only []
  have hrest : ∀ r : ValidationResult,
      (validateMetadata metadata (validateDimensions buffer r)).dimensions =
        (validateDimensions buffer r).dimensions :=
    fun r => validateMetadata_dimensions metadata (validateDimensions buffer r)
  cases hm : buffer.sharpMeta with
  | ok m =>
    cases hA : isAnimatedSticker buffer with
    | true =>
      simp only [eq_self_iff_true, if_true]
      rw [validateAnimatedSticker_dimensions, hrest,
        validateDimensions_ok_dimensions _ _ m hm]
    | false =>
      simp only [Bool.false_eq_true, if_false]
      rw [hrest, validateDimensions_ok_dimensions _ _ m hm]
  | error cause =>
    cases hA : isAnimatedSticker buffer with
    | true =>
      simp only [eq_self_iff_true, if_true]
      rw [validateAnimatedSticker_dimensions, hrest,
        validateDimensions_err_dimensions _ _ cause hm, validateFileSize_dimensions]
      rfl
    | false =>
      simp only [Bool.false_eq_true, if_false]
      rw [hrest, validateDimensions_err_dimensions _ _ cause hm, validateFileSize_dimensions]
      rfl

theorem validateSticker_pack (buffer : StickerBuffer) (metadata : IStickerOptions) :
    (validateSticker buffer metadata).metadata.pack =
      { value := metadata.pack.getD ""
        isValid := if PACK_NAME_MAX_LENGTH < (metadata.pack.getD "").length then false else true
        limit := PACK_NAME_MAX_LENGTH } := by
  have h0 : (validateSticker buffer metadata).metadata = (validateStickerCore buffer metadata).metadata := rfl
  rw [h0]
  unfold validateStickerCore
  simp only []
  cases hA : isAnimatedSticker buffer with
  | true =>
    simp only [eq_self_iff_true, if_true]
    rw [validateAnimatedSticker_metadata, validateMetadata_pack, validateDimensions_metadata,
      validateFileSize_metadata]
    rfl
  | false =>
    simp only [Bool.false_eq_true, if_false]
    rw [validateMetadata_pack, validateDimensions_metadata, validateFileSize_metadata]
    rfl

theorem validateSticker_author (buffer : StickerBuffer) (metadata : IStickerOptions) :
    (validateSticker buffer metadata).metadata.author =
      { value := metadata.author.getD ""
        isValid := if AUTHOR_MAX_LENGTH < (metadata.author.getD "").length then false else true
        limit := AUTHOR_MAX_LENGTH } := by
  have h0 : (validateSticker buffer metadata).metadata = (validateStickerCore buffer metadata).metadata := rfl
  rw [h0]
  unfold validateStickerCore
  simp only []
  cases hA : isAnimatedSticker buffer with
  | true =>
    simp only [eq_self_iff_true, if_true]
    rw [validateAnimatedSticker_metadata, validateMetadata_author, validateDimensions_metadata,
      validateFileSize_metadata]
    rfl
  | false =>
    simp only [Bool.false_eq_true, if_false]
    rw [validateMetadata_author, validateDimensions_metadata, validateFileSize_metadata]
    rfl

theorem validateSticker_id (buffer : StickerBuffer) (metadata : IStickerOptions) :
    (validateSticker buffer metadata).metadata.id =
      { value := metadata.id.getD ""
        isValid :=
          if (!(metadata.id.getD "").data.isEmpty && !(metadata.id.getD "").data.all allowedIdChar) = true
          then false
          else if ID_MAX_LENGTH < (metadata.id.getD "").length then false
          else true
        limit := ID_MAX_LENGTH } := by
  have h0 : (validateSticker buffer metadata).metadata = (validateStickerCore buffer metadata).metadata := rfl
  rw [h0]
  unfold validateStickerCore
  simp only []
  cases hA : isAnimatedSticker buffer with
  | true =>
    simp only [eq_self_iff_true, if_true]
    rw [validateAnimatedSticker_metadata, validateMetadata_id, validateDimensions_metadata,
      validateFileSize_metadata]
    rfl
  | false =>
    simp only [Bool.false_eq_true, if_false]
    rw [validateMetadata_id, validateDimensions_metadata, validateFileSize_metadata]
    rfl

theorem validateSticker_categories (buffer : StickerBuffer) (metadata : IStickerOptions) :
    (validateSticker buffer metadata).metadata.categories =
      { value := metadata.categories.getD []
        isValid :=
          if MAX_CATEGORIES_PER_STICKER < (metadata.categories.getD []).length then false else true
        count := (metadata.categories.getD []).length
        limit := MAX_CATEGORIES_PER_STICKER } := by
  have h0 : (validateSticker buffer metadata).metadata = (validateStickerCore buffer metadata).metadata := rfl
  rw [h0]
  unfold validateStickerCore
  simp only []
  cases hA : isAnimatedSticker buffer with
  | true =>
    simp only [eq_self_iff_true, if_true]
    rw [validateAnimatedSticker_metadata, validateMetadata_categories, validateDimensions_metadata,
      validateFileSize_metadata]
    rfl
  | false =>
    simp only [Bool.false_eq_true, if_false]
    rw [validateMetadata_categories, validateDimensions_metadata, validateFileSize_metadata]
    rfl

theorem validateSticker_warnings_decomp (buffer : StickerBuffer) (metadata : IStickerOptions) :
    ∃ t, (validateSticker buffer metadata).warnings =
      ((if RECOMMENDED_FILE_SIZE * 3 < buffer.length then [VWarning.fileSizeLarge buffer.length]
        else []) ++
       ((if (metadata.categories.getD []).length = 0 then [VWarning.noCategories] else []) ++
        [VWarning.whiteStrokeAdvisory])) ++ t := by
  have h0 : (validateSticker buffer metadata).warnings = (validateStickerCore buffer metadata).warnings := rfl
  rw [h0]
  unfold validateStickerCore
  simp only []
  cases hA : isAnimatedSticker buffer with
  | true =>
    simp only [eq_self_iff_true, if_true]
    obtain ⟨t, ht⟩ := validateAnimatedSticker_warnings_append buffer
      (validateMetadata metadata (validateDimensions buffer (validateFileSize buffer true
        { initialResult with
            fileSize := { initialResult.fileSize with type := SizeType.animated } })))
    refine ⟨t, ?_⟩
    rw [ht, validateMetadata_warnings, validateDimensions_warnings, validateFileSize_warnings]
    simp [initialResult, List.append_assoc]
  | false =>
    simp only [Bool.false_eq_true, if_false]
    refine ⟨[], ?_⟩
    rw [validateMetadata_warnings, validateDimensions_warnings, validateFileSize_warnings]
    simp [initialResult, List.append_assoc]

/-- C5: report validity invariant.  For every buffer (readable or not) and
every metadata object, the report returned by `validateSticker` has
`isValid = true` exactly when its `errors` list is empty; warnings play no
role in `isValid`. -/
theorem C5_isValid_iff_no_errors (buffer : StickerBuffer) (metadata : IStickerOptions) :
    (validateSticker buffer metadata).isValid = true ↔
      (validateSticker buffer metadata).errors = [] := by
  have h1 : (validateSticker buffer metadata).isValid =
      decide ((validateStickerCore buffer metadata).errors.length = 0) := rfl
  have h2 : (validateSticker buffer metadata).errors =
      (validateStickerCore buffer metadata).errors := rfl
  rw [h1, h2]
  simp [List.length_eq_zero]

/-- C4 (amended): the validator is total — for every buffer, including one
whose type sniff and decode both reject, `validateSticker` returns a
report and no exception reaches the caller; a decode/measure fault is
folded into the report as exactly one error entry embedding the underlying
cause.  But the structured sub-fields are NOT all left at their safe
defaults: the dimensions sub-report keeps its zeroed width/height yet has
its `isValid` flag set to `false` (the safe default is `true`), and the
whole report is marked invalid. -/
theorem C4_fault_folded_into_report (len : Nat) (ft : Except String (Option Mime))
    (cause : String) (metadata : IStickerOptions) :
    ((validateSticker { length := len, fileType := ft, sharpMeta := Except.error cause }
        metadata).errors.count (VError.dimensionsReadFailed cause) = 1) ∧
    (validateSticker { length := len, fileType := ft, sharpMeta := Except.error cause }
        metadata).dimensions = { width := 0, height := 0, isValid := false } ∧
    (validateSticker { length := len, fileType := ft, sharpMeta := Except.error cause }
        metadata).isValid = false := by
  have hcount : (validateSticker { length := len, fileType := ft, sharpMeta := Except.error cause }
      metadata).errors.count (VError.dimensionsReadFailed cause) = 1 := by
    rw [validateSticker_errors]
    simp only []
    split_ifs <;>
      simp [List.count_append, List.count_cons, List.count_nil]
  refine ⟨hcount, ?_, ?_⟩
  · rw [validateSticker_dimensions]
  · have hne : (validateSticker { length := len, fileType := ft, sharpMeta := Except.error cause }
        metadata).errors ≠ [] := by
      intro h
      rw [h] at hcount
      simp at hcount
    have hiv : (validateSticker { length := len, fileType := ft, sharpMeta := Except.error cause }
        metadata).isValid =
        decide ((validateSticker { length := len, fileType := ft, sharpMeta := Except.error cause }
          metadata).errors.length = 0) := rfl
    rw [hiv, decide_eq_false_iff_not]
    intro hlen
    exact hne (List.length_eq_zero.mp hlen)

theorem C4_safe_defaults_counterexample :
    (validateSticker
        { length := 10, fileType := Except.error "unreadable", sharpMeta := Except.error "unreadable" }
        { pack := none, author := none, id := none, categories := none }).errors =
      [VError.dimensionsReadFailed "unreadable"] ∧
    (validateSticker
        { length := 10, fileType := Except.error "unreadable", sharpMeta := Except.error "unreadable" }
        { pack := none, author := none, id := none, categories := none }).dimensions.isValid = false := by
  decide

/-- C6 (amended): the validator's animated/static classification is not
frame-count-only.  A WebP buffer is classified by decoded frame count
(>1 pages means animated), but a GIF-typed buffer is classified animated
by its MIME type alone, regardless of frame count, and everything else is
static.  This classification alone selects which size limit applies:
500 KiB for animated, 100 KiB for static, stamped into the report's
`fileSize.limit` and `fileSize.type`. -/
theorem C6_classification_amended (buffer : StickerBuffer) (metadata : IStickerOptions) :
    isAnimatedSticker buffer = classificationDescribed buffer ∧
    (validateSticker buffer metadata).fileSize.limit =
      (if isAnimatedSticker buffer then ANIMATED_MAX_SIZE else STATIC_MAX_SIZE) ∧
    (validateSticker buffer metadata).fileSize.type =
      (if isAnimatedSticker buffer then SizeType.animated else SizeType.static) := by
  refine ⟨?_, ?_, ?_⟩
  · rcases buffer with ⟨len, ft, sm⟩
    cases ft with
    | error e => rfl
    | ok mopt =>
      cases mopt with
      | none => rfl
      | some mime =>
        cases mime with
        | webp =>
          cases sm with
          | error e => rfl
          | ok m =>
            rcases m with ⟨pg, w, h⟩
            cases pg <;> rfl
        | gif => rfl
        | other => rfl
  · rw [validateSticker_fileSize]
  · rw [validateSticker_fileSize]

theorem C6_classification_counterexample :
    isAnimatedSticker
      { length := 10, fileType := Except.ok (some Mime.gif)
        sharpMeta := Except.ok { pages := some 1, width := some 512, height := some 512 } } = true ∧
    (validateSticker
        { length := 10, fileType := Except.ok (some Mime.gif)
          sharpMeta := Except.ok { pages := some 1, width := some 512, height := some 512 } }
        { pack := none, author := none, id := none, categories := none }).fileSize.limit =
      ANIMATED_MAX_SIZE := by
  decide

/-- C7: boundary exactness.  For any metadata, a static-classified buffer
of exactly 100*1024 bytes yields a valid fileSize sub-report and no size
error, while 100*1024+1 bytes yields an invalid sub-report and the size
error; a buffer decoding to exactly 512x512 is dimensionally valid with no
dimension error, while 511x512 or 512x511 yields an invalid dimensions
sub-report and the dimension error. -/
theorem C7_boundary_exactness (buffer : StickerBuffer) (metadata : IStickerOptions) :
    (isAnimatedSticker buffer = false → buffer.length = 100 * 1024 →
      (validateSticker buffer metadata).fileSize.isValid = true ∧
      (∀ s l a, VError.fileSizeExceeded s l a ∉ (validateSticker buffer metadata).errors)) ∧
    (isAnimatedSticker buffer = false → buffer.length = 100 * 1024 + 1 →
      (validateSticker buffer metadata).fileSize.isValid = false ∧
      VError.fileSizeExceeded (100 * 1024 + 1) (100 * 1024) false ∈
        (validateSticker buffer metadata).errors) ∧
    (∀ m, buffer.sharpMeta = Except.ok m → m.width = some 512 → m.height = some 512 →
      (validateSticker buffer metadata).dimensions.isValid = true ∧
      (∀ w h, VError.dimensionsInvalid w h ∉ (validateSticker buffer metadata).errors) ∧
      (∀ c, VError.dimensionsReadFailed c ∉ (validateSticker buffer metadata).errors)) ∧
    (∀ m, buffer.sharpMeta = Except.ok m → m.width = some 511 → m.height = some 512 →
      (validateSticker buffer metadata).dimensions.isValid = false ∧
      VError.dimensionsInvalid 511 512 ∈ (validateSticker buffer metadata).errors) ∧
    (∀ m, buffer.sharpMeta = Except.ok m → m.width = some 512 → m.height = some 511 →
      (validateSticker buffer metadata).dimensions.isValid = false ∧
      VError.dimensionsInvalid 512 511 ∈ (validateSticker buffer metadata).errors) := by
  refine ⟨?_, ?_, ?_, ?_, ?_⟩
  · intro hA hlen
    constructor
    · rw [validateSticker_fileSize]
      simp [hA, hlen, STATIC_MAX_SIZE]
    · intro s l a
      rw [validateSticker_errors, hA, hlen]
      cases hm : buffer.sharpMeta <;>
        simp [STATIC_MAX_SIZE]
  · intro hA hlen
    constructor
    · rw [validateSticker_fileSize]
      simp [hA, hlen, STATIC_MAX_SIZE]
    · rw [validateSticker_errors, hA, hlen]
      simp [STATIC_MAX_SIZE]
  · intro m hm hw hh
    refine ⟨?_, ?_, ?_⟩
    · rw [validateSticker_dimensions, hm]
      simp [hw, hh, STICKER_SIZE]
    · intro w h
      rw [validateSticker_errors, hm]
      simp [hw, hh, STICKER_SIZE]
    · intro c
      rw [validateSticker_errors, hm]
      simp [hw, hh, STICKER_SIZE]
  · intro m hm hw hh
    constructor
    · rw [validateSticker_dimensions, hm]
      simp [hw, hh, STICKER_SIZE]
    · rw [validateSticker_errors, hm]
      simp [hw, hh, STICKER_SIZE]
  · intro m hm hw hh
    constructor
    · rw [validateSticker_dimensions, hm]
      simp [hw, hh, STICKER_SIZE]
    · rw [validateSticker_errors, hm]
      simp [hw, hh, STICKER_SIZE]

theorem C7_boundary_exactness_witness :
    (validateSticker
        { length := 100 * 1024, fileType := Except.ok none
          sharpMeta := Except.ok { pages := none, width := some 512, height := some 512 } }
        { pack := none, author := none, id := none, categories := none }).fileSize.isValid = true ∧
    VError.fileSizeExceeded (100 * 1024) (100 * 1024) false ∉
      (validateSticker
        { length := 100 * 1024, fileType := Except.ok none
          sharpMeta := Except.ok { pages := none, width := some 512, height := some 512 } }
        { pack := none, author := none, id := none, categories := none }).errors ∧
    (validateSticker
        { length := 100 * 1024 + 1, fileType := Except.ok none
          sharpMeta := Except.ok { pages := none, width := some 511, height := some 512 } }
        { pack := none, author := none, id := none, categories := none }).fileSize.isValid = false ∧
    VError.fileSizeExceeded (100 * 1024 + 1) (100 * 1024) false ∈
      (validateSticker
        { length := 100 * 1024 + 1, fileType := Except.ok none
          sharpMeta := Except.ok { pages := none, width := some 511, height := some 512 } }
        { pack := none, author := none, id := none, categories := none }).errors ∧
    (validateSticker
        { length := 100 * 1024, fileType := Except.ok none
          sharpMeta := Except.ok { pages := none, width := some 512, height := some 512 } }
        { pack := none, author := none, id := none, categories := none }).dimensions.isValid = true ∧
    VError.dimensionsInvalid 511 512 ∉
      (validateSticker
        { length := 100 * 1024, fileType := Except.ok none
          sharpMeta := Except.ok { pages := none, width := some 512, height := some 512 } }
        { pack := none, author := none, id := none, categories := none }).errors ∧
    VError.dimensionsReadFailed "x" ∉
      (validateSticker
        { length := 100 * 1024, fileType := Except.ok none
          sharpMeta := Except.ok { pages := none, width := some 512, height := some 512 } }
        { pack := none, author := none, id := none, categories := none }).errors ∧
    (validateSticker
        { length := 100 * 1024 + 1, fileType := Except.ok none
          sharpMeta := Except.ok { pages := none, width := some 511, height := some 512 } }
        { pack := none, author := none, id := none, categories := none }).dimensions.isValid = false ∧
    VError.dimensionsInvalid 511 512 ∈
      (validateSticker
        { length := 100 * 1024 + 1, fileType := Except.ok none
          sharpMeta := Except.ok { pages := none, width := some 511, height := some 512 } }
        { pack := none, author := none, id := none, categories := none }).errors ∧
    (validateSticker
        { length := 10, fileType := Except.ok none
          sharpMeta := Except.ok { pages := none, width := some 512, height := some 511 } }
        { pack := none, author := none, id := none, categories := none }).dimensions.isValid = false ∧
    VError.dimensionsInvalid 512 511 ∈
      (validateSticker
        { length := 10, fileType := Except.ok none
          sharpMeta := Except.ok { pages := none, width := some 512, height := some 511 } }
        { pack := none, author := none, id := none, categories := none }).errors := by
  refine ⟨?_, ?_, ?_, ?_, ?_, ?_, ?_, ?_, ?_, ?_, ?_⟩
  · exact ((C7_boundary_exactness _ _).1 (by decide) rfl).1
  · exact ((C7_boundary_exactness _ _).1 (by decide) rfl).2 (100 * 1024) (100 * 1024) false
  · exact ((C7_boundary_exactness _ _).2.1 (by decide) rfl).1
  · exact ((C7_boundary_exactness _ _).2.1 (by decide) rfl).2
  · exact ((C7_boundary_exactness _ _).2.2.1 _ rfl rfl rfl).1
  · exact ((C7_boundary_exactness _ _).2.2.1 _ rfl rfl rfl).2.1 511 512
  · exact ((C7_boundary_exactness _ _).2.2.1 _ rfl rfl rfl).2.2 "x"
  · exact ((C7_boundary_exactness _ _).2.2.2.1 _ rfl rfl rfl).1
  · exact ((C7_boundary_exactness _ _).2.2.2.1 _ rfl rfl rfl).2
  · exact ((C7_boundary_exactness _ _).2.2.2.2 _ rfl rfl rfl).1
  · exact ((C7_boundary_exactness _ _).2.2.2.2 _ rfl rfl rfl).2

/-- C8: metadata boundary and charset checks.  For any buffer: a pack name
of exactly 128 characters yields a valid pack sub-report and no pack-limit
error while 129 yields the pack-limit error; a non-empty ID whose
characters all lie in the allowed class passes charset validation; an ID
containing any character outside the class gets the charset error
regardless of its length; more than 3 categories is an error; exactly 0
categories produces the missing-categories warning, never a categories
error, and leaves the categories sub-report valid. -/
theorem C8_metadata_boundaries (buffer : StickerBuffer) (metadata : IStickerOptions) :
    (∀ s : String, metadata.pack = some s → s.length = 128 →
      (validateSticker buffer metadata).metadata.pack.isValid = true ∧
      VError.packNameTooLong ∉ (validateSticker buffer metadata).errors) ∧
    (∀ s : String, metadata.pack = some s → s.length = 129 →
      (validateSticker buffer metadata).metadata.pack.isValid = false ∧
      VError.packNameTooLong ∈ (validateSticker buffer metadata).errors) ∧
    (∀ s : String, metadata.id = some s → s.data ≠ [] → s.data.all allowedIdChar = true →
      VError.idInvalidChars ∉ (validateSticker buffer metadata).errors) ∧
    (∀ (s : String) (c : Char), metadata.id = some s → c ∈ s.data → allowedIdChar c = false →
      VError.idInvalidChars ∈ (validateSticker buffer metadata).errors) ∧
    (∀ cs : List String, metadata.categories = some cs → 3 < cs.length →
      VError.tooManyCategories cs.length ∈ (validateSticker buffer metadata).errors) ∧
    (metadata.categories = some [] →
      VWarning.noCategories ∈ (validateSticker buffer metadata).warnings ∧
      (∀ n, VError.tooManyCategories n ∉ (validateSticker buffer metadata).errors) ∧
      (validateSticker buffer metadata).metadata.categories.isValid = true) := by
  refine ⟨?_, ?_, ?_, ?_, ?_, ?_⟩
  · intro s hp hlen
    constructor
    · rw [validateSticker_pack]
      simp [hp, hlen, PACK_NAME_MAX_LENGTH]
    · rw [validateSticker_errors]
      cases hm : buffer.sharpMeta <;> simp [hp, hlen, PACK_NAME_MAX_LENGTH]
  · intro s hp hlen
    constructor
    · rw [validateSticker_pack]
      simp [hp, hlen, PACK_NAME_MAX_LENGTH]
    · rw [validateSticker_errors]
      simp [hp, hlen, PACK_NAME_MAX_LENGTH]
  · intro s hid hne hall
    rw [validateSticker_errors]
    cases hm : buffer.sharpMeta <;> simp [hid, hall]
  · intro s c hid hc hbad
    have hallf : s.data.all allowedIdChar = false := by
      rcases Bool.eq_false_or_eq_true (s.data.all allowedIdChar) with h | h
      · have := List.all_eq_true.mp h c hc
        rw [hbad] at this
        cases this
      · exact h
    have hnemp : s.data.isEmpty = false := by
      cases hd : s.data with
      | nil => rw [hd] at hc; cases hc
      | cons a l => rfl
    rw [validateSticker_errors]
    simp [hid, hallf, hnemp]
  · intro cs hcats hlen
    rw [validateSticker_errors]
    simp [hcats, MAX_CATEGORIES_PER_STICKER, hlen]
  · intro hcats
    refine ⟨?_, ?_, ?_⟩
    · obtain ⟨t, ht⟩ := validateSticker_warnings_decomp buffer metadata
      rw [ht]
      simp [hcats]
    · intro n
      rw [validateSticker_errors]
      cases hm : buffer.sharpMeta <;> simp [hcats, MAX_CATEGORIES_PER_STICKER]
    · rw [validateSticker_categories]
      simp [hcats, MAX_CATEGORIES_PER_STICKER]

theorem C8_metadata_boundaries_witness :
    (validateSticker
        { length := 10, fileType := Except.ok none
          sharpMeta := Except.ok { pages := none, width := some 512, height := some 512 } }
        { pack := some (String.mk (List.replicate 128 'a')), author := none, id := none
          categories := none }).metadata.pack.isValid = true ∧
    VError.packNameTooLong ∉
      (validateSticker
        { length := 10, fileType := Except.ok none
          sharpMeta := Except.ok { pages := none, width := some 512, height := some 512 } }
        { pack := some (String.mk (List.replicate 128 'a')), author := none, id := none
          categories := none }).errors ∧
    (validateSticker
        { length := 10, fileType := Except.ok none
          sharpMeta := Except.ok { pages := none, width := some 512, height := some 512 } }
        { pack := some (String.mk (List.replicate 129 'a')), author := none, id := none
          categories := none }).metadata.pack.isValid = false ∧
    VError.packNameTooLong ∈
      (validateSticker
        { length := 10, fileType := Except.ok none
          sharpMeta := Except.ok { pages := none, width := some 512, height := some 512 } }
        { pack := some (String.mk (List.replicate 129 'a')), author := none, id := none
          categories := none }).errors ∧
    VError.idInvalidChars ∉
      (validateSticker
        { length := 10, fileType := Except.ok none
          sharpMeta := Except.ok { pages := none, width := some 512, height := some 512 } }
        { pack := none, author := none, id := some "a_b-c.d e", categories := none }).errors ∧
    VError.idInvalidChars ∈
      (validateSticker
        { length := 10, fileType := Except.ok none
          sharpMeta := Except.ok { pages := none, width := some 512, height := some 512 } }
        { pack := none, author := none, id := some "bad@id", categories := none }).errors ∧
    VError.tooManyCategories 4 ∈
      (validateSticker
        { length := 10, fileType := Except.ok none
          sharpMeta := Except.ok { pages := none, width := some 512, height := some 512 } }
        { pack := none, author := none, id := none
          categories := some ["e1", "e2", "e3", "e4"] }).errors ∧
    VWarning.noCategories ∈
      (validateSticker
        { length := 10, fileType := Except.ok none
          sharpMeta := Except.ok { pages := none, width := some 512, height := some 512 } }
        { pack := none, author := none, id := none, categories := some [] }).warnings ∧
    VError.tooManyCategories 0 ∉
      (validateSticker
        { length := 10, fileType := Except.ok none
          sharpMeta := Except.ok { pages := none, width := some 512, height := some 512 } }
        { pack := none, author := none, id := none, categories := some [] }).errors ∧
    (validateSticker
        { length := 10, fileType := Except.ok none
          sharpMeta := Except.ok { pages := none, width := some 512, height := some 512 } }
        { pack := none, author := none, id := none
          categories := some [] }).metadata.categories.isValid = true := by
  refine ⟨?_, ?_, ?_, ?_, ?_, ?_, ?_, ?_, ?_, ?_⟩
  · exact ((C8_metadata_boundaries _ _).1 (String.mk (List.replicate 128 'a')) rfl (by decide)).1
  · exact ((C8_metadata_boundaries _ _).1 (String.mk (List.replicate 128 'a')) rfl (by decide)).2
  · exact ((C8_metadata_boundaries _ _).2.1 (String.mk (List.replicate 129 'a')) rfl (by decide)).1
  · exact ((C8_metadata_boundaries _ _).2.1 (String.mk (List.replicate 129 'a')) rfl (by decide)).2
  · exact (C8_metadata_boundaries _ _).2.2.1 "a_b-c.d e" rfl (by decide) (by decide)
  · exact (C8_metadata_boundaries _ _).2.2.2.1 "bad@id" '@' rfl (by decide) (by decide)
  · exact (C8_metadata_boundaries _ _).2.2.2.2.1 ["e1", "e2", "e3", "e4"] rfl (by decide)
  · exact ((C8_metadata_boundaries _ _).2.2.2.2.2 rfl).1
  · exact ((C8_metadata_boundaries _ _).2.2.2.2.2 rfl).2.1 0
  · exact ((C8_metadata_boundaries _ _).2.2.2.2.2 rfl).2.2

theorem staticLimit_of_not_animated (buffer : StickerBuffer) (metadata : IStickerOptions)
    (h : isAnimatedSticker buffer = false) :
    (validateSticker buffer metadata).fileSize.limit = STATIC_MAX_SIZE ∧
    (validateSticker buffer metadata).fileSize.type = SizeType.static := by
  rw [validateSticker_fileSize]
  simp [h]

/-- C10 (implicit): every buffer whose type sniff rejects, whose detected
type is undeterminable, whose detected type is neither WebP nor GIF, or
whose WebP decode rejects, is classified static — classification never
raises — and therefore gets the 100 KiB static size limit stamped into
its report, even if the bytes are actually animated media in an
unrecognized container. -/
theorem C10_unrecognized_classified_static (len : Nat) (cause : String)
    (sm : Except String SharpMetadata) (metadata : IStickerOptions) :
    (isAnimatedSticker { length := len, fileType := Except.error cause, sharpMeta := sm } = false ∧
      (validateSticker { length := len, fileType := Except.error cause, sharpMeta := sm }
        metadata).fileSize.limit = STATIC_MAX_SIZE ∧
      (validateSticker { length := len, fileType := Except.error cause, sharpMeta := sm }
        metadata).fileSize.type = SizeType.static) ∧
    (isAnimatedSticker { length := len, fileType := Except.ok none, sharpMeta := sm } = false ∧
      (validateSticker { length := len, fileType := Except.ok none, sharpMeta := sm }
        metadata).fileSize.limit = STATIC_MAX_SIZE ∧
      (validateSticker { length := len, fileType := Except.ok none, sharpMeta := sm }
        metadata).fileSize.type = SizeType.static) ∧
    (isAnimatedSticker { length := len, fileType := Except.ok (some Mime.other), sharpMeta := sm } = false ∧
      (validateSticker { length := len, fileType := Except.ok (some Mime.other), sharpMeta := sm }
        metadata).fileSize.limit = STATIC_MAX_SIZE ∧
      (validateSticker { length := len, fileType := Except.ok (some Mime.other), sharpMeta := sm }
        metadata).fileSize.type = SizeType.static) ∧
    (isAnimatedSticker { length := len, fileType := Except.ok (some Mime.webp), sharpMeta := Except.error cause } = false ∧
      (validateSticker { length := len, fileType := Except.ok (some Mime.webp), sharpMeta := Except.error cause }
        metadata).fileSize.limit = STATIC_MAX_SIZE ∧
      (validateSticker { length := len, fileType := Except.ok (some Mime.webp), sharpMeta := Except.error cause }
        metadata).fileSize.type = SizeType.static) :=
  ⟨⟨rfl, staticLimit_of_not_animated _ metadata rfl⟩,
   ⟨rfl, staticLimit_of_not_animated _ metadata rfl⟩,
   ⟨rfl, staticLimit_of_not_animated _ metadata rfl⟩,
   ⟨rfl, staticLimit_of_not_animated _ metadata rfl⟩⟩
